import Mathlib

/-
  Verification development for the OCILIB variable-binding subsystem
  (src/src/bind.c).

  The C code is shallowly embedded: every mutable C struct becomes a Lean
  structure, pointer mutation becomes explicit state passing, and machine
  integers become Nat with explicit `% 2 ^ w` at the places the C code
  truncates (the `(ub2)` casts into the per-element length array, and the
  unsigned 32-bit subtraction in BindGetDataSizeAtPos).

  Out-of-scope collaborators (the OCI wire layer, value-object
  constructors, the name/index hash table of statement.c and the
  allocation macros of macro.h, none of which are under src/) are
  modelled from the spec where a claim needs them; each such definition
  carries a doc comment starting with `Modelled from the spec:`.
-/

/- ================= constants (public headers, not under src/) ========= -/

/-- Numeric value of `OCI_BIND_INPUT` (public header). -/
def OCI_BIND_INPUT : Nat := 1

/-- Numeric value of `OCI_BIND_OUTPUT` (public header). -/
def OCI_BIND_OUTPUT : Nat := 2

/-- Numeric value of `OCI_BIND_BY_POS` (public header). -/
def OCI_BIND_BY_POS : Nat := 0

/-- Numeric value of `OCI_BIND_BY_NAME` (public header). -/
def OCI_BIND_BY_NAME : Nat := 1

/-- Numeric value of `OCI_BAM_EXTERNAL` (public header): caller-owned data. -/
def OCI_BAM_EXTERNAL : Nat := 1

/-- Numeric value of `OCI_BAM_INTERNAL` (public header): subsystem-owned data. -/
def OCI_BAM_INTERNAL : Nat := 2

/-- `OCI_BIND_MAX`: the configured maximum number of binds per statement
(public header). -/
def OCI_BIND_MAX : Nat := 1024

/-- `OCI_BIND_ARRAY_GROWTH_FACTOR` (public header). -/
def OCI_BIND_ARRAY_GROWTH_FACTOR : Nat := 128

/-- Oracle wire code `SQLT_VNU` (opaque `OCINumber` representation). -/
def SQLT_VNU : Nat := 68

/-- Oracle wire code `SQLT_NTY` (named object type). -/
def SQLT_NTY : Nat := 108

/-- `OCI_NUM_NUMBER` subtype tag (public header; exact value immaterial). -/
def OCI_NUM_NUMBER : Nat := 128

/-- `OCI_CSF_NONE` charset form (public header). -/
def OCI_CSF_NONE : Nat := 0

/-- `OCI_CSF_DEFAULT` charset form (public header). -/
def OCI_CSF_DEFAULT : Nat := 1

/-- `OCI_CSF_NATIONAL` charset form (public header). -/
def OCI_CSF_NATIONAL : Nat := 2

/-- Oracle `SQLCS_IMPLICIT` charset-form attribute value. -/
def SQLCS_IMPLICIT : Nat := 1

/-- Oracle `SQLCS_NCHAR` charset-form attribute value. -/
def SQLCS_NCHAR : Nat := 2

/-- `OCI_BDM_IN_OUT` bind direction (public header). -/
def OCI_BDM_IN_OUT : Nat := 3

/-- Oracle execute-mode `OCI_DEFAULT`. -/
def OCI_DEFAULT : Nat := 0

/-- Oracle execute-mode `OCI_DATA_AT_EXEC`. -/
def OCI_DATA_AT_EXEC : Nat := 2

/-- Statement type `OCI_CST_BEGIN` (PL/SQL block). -/
def OCI_CST_BEGIN : Nat := 8

/-- Statement type `OCI_CST_DECLARE` (PL/SQL declare block). -/
def OCI_CST_DECLARE : Nat := 9

/-- Statement type `OCI_CST_CALL` (procedure call). -/
def OCI_CST_CALL : Nat := 10

/-- `OCI_IS_PLSQL_STMT(type)` macro: block / declare / procedure-call
statement types. -/
def OCI_IS_PLSQL_STMT (t : Nat) : Bool :=
  t = OCI_CST_BEGIN || t = OCI_CST_DECLARE || t = OCI_CST_CALL

/- ========================= data model ================================ -/

/-- The `OCI_CDT_*` data-type category of a bind (`bnd->type`), modelled as
a closed sum as the spec's design notes direct. -/
inductive CDT
  | numeric
  | datetime
  | text
  | long
  | cursor
  | lob
  | file
  | timestamp
  | interval
  | raw
  | object
  | collection
  | ref
  | boolean
deriving DecidableEq, Repr

/-- Provenance of the pointer stored in `bnd->input`: either the caller's
data pointer or a value materialized internally by `BindAllocData`. -/
inductive InputPtr
  | caller
  | internalVal
deriving DecidableEq, Repr

/-- What `bnd->buffer.data` points at.  `nullBuf` is the NULL pointer;
`callerAlias` aliases `bnd->input` (zero-copy); `internalBuf n` is a
buffer of `n` bytes this subsystem allocated with `OCI_ALLOCATE_BUFFER` /
`OCI_MemAlloc`; `objHandle` points into a value object owned through
`bnd->input`; `arrayMem` points into the block owned by the array
collaborator. -/
inductive DataBuf
  | nullBuf
  | callerAlias
  | internalBuf (bytes : Nat)
  | objHandle
  | arrayMem
deriving DecidableEq, Repr

/-- The global `OCILib` state and the character-width configuration read
by the allocator and the data-size accessors (`sizeof(dbtext)`,
`sizeof(otext)`), modelled as explicit configuration as the spec's design
notes direct. -/
structure OCI_Library where
  use_wide_char_conv : Bool
  sizeof_dbtext : Nat
  sizeof_otext : Nat
deriving DecidableEq, Repr

/-- The fields of the C struct `OCI_Bind` (including its embedded
`OCI_BindBuffer`) that bind.c reads or writes.  Defaults model the
zero-initialisation performed by `OCI_ALLOCATE_DATA`'s calloc.
`count` is `buffer.count`; `inds`/`obj_inds`/`plrcds` record the slot
count of the corresponding arrays (`none` = NULL pointer); `lens` holds
the `ub2` per-element length array contents. -/
structure OCI_Bind where
  name : String := ""
  type : CDT := .numeric
  code : Nat := 0
  subtype : Nat := 0
  size : Nat := 0
  csfrm : Nat := OCI_CSF_NONE
  direction : Nat := 0
  is_array : Bool := false
  alloc : Bool := false
  alloc_mode : Nat := 0
  count : Nat := 0
  nbelem : Nat := 0
  input : Option InputPtr := none
  data : DataBuf := .nullBuf
  inds : Option Nat := none
  obj_inds : Option Nat := none
  lens : Option (List Nat) := none
  plrcds : Option Nat := none
  handle : Bool := false
deriving DecidableEq, Repr

/-- The fields of the C struct `OCI_Statement` that bind.c reads or
writes.  `nb_ubinds` / `nb_rbinds` are represented by the lengths of the
`ubinds` / `rbinds` lists.  The `map` is the name-to-signed-index hash
table (`none` = not created yet). -/
structure OCI_Statement where
  bind_mode : Nat := OCI_BIND_BY_NAME
  bind_reuse : Bool := false
  bind_alloc_mode : Nat := OCI_BAM_EXTERNAL
  bind_array : Bool := false
  nb_iters : Nat := 1
  nb_iters_init : Nat := 1
  type : Nat := 0
  ubinds : List OCI_Bind := []
  rbinds : List OCI_Bind := []
  allocated_ubinds : Nat := 0
  allocated_rbinds : Nat := 0
  map : Option (List (String × Int)) := none
deriving DecidableEq, Repr

/-- The error kinds bind.c can report through its `Exception*`
collaborators. -/
inductive BindError
  | outOfBounds
  | bindAlreadyUsed
  | rebindBadDatatype
  | maxBind
  | minimumValue
deriving DecidableEq, Repr

/-- The `OCI_Context` call context: the `OCI_STATUS` flag plus the last
error reported through an `Exception*` call. -/
structure OCI_Context where
  status : Bool
  err : Option BindError
deriving DecidableEq, Repr

/- =================== out-of-scope collaborators ====================== -/

/-- Modelled from the spec: the name/index map collaborator's
`get(name) -> signedIndex|absent` (`OCI_BindGetInternalIndex` of
statement.c, not under src/).  Input binds are stored with a positive
1-based index, output binds with a negative one; an absent name yields
`-1`. -/
def OCI_BindGetInternalIndex (stmt : OCI_Statement) (name : String) : Int :=
  match (stmt.map.getD []).find? (fun e => e.1 = name) with
  | some e => e.2
  | none => -1

/-- Modelled from the spec: the name/index map collaborator's
`put(name, signedIndex)` (`OCI_HashAddInt`, not under src/). -/
def OCI_HashAddInt (m : Option (List (String × Int))) (name : String)
    (v : Int) : Option (List (String × Int)) :=
  some ((m.getD []) ++ [(name, v)])

/-- Modelled from the spec: `ostrtol(&name[1], NULL, 10)` — parse the
leading decimal digits of the rest of a positional bind name. -/
def parseLeadingNat : List Char → Nat → Nat
  | c :: cs, acc => if c.isDigit then parseLeadingNat cs (acc * 10 + (c.toNat - 48)) else acc
  | [], acc => acc

/-- Modelled from the spec: `ostrtol` applied to a bind-name suffix. -/
def ostrtol (s : String) : Int :=
  Int.ofNat (parseLeadingNat s.data 0)

/- =================== BindAllocData (bind.c:617-923) ================== -/

/-- `BindAllocData` (bind.c:617-923): the Typed Value Materializer.  For
internally-owned binds with no caller data it constructs the backing
value per category (value-object constructors and the array collaborator
are assumed to succeed; their distinct memory views are collapsed into
`DataBuf.objHandle` / `DataBuf.arrayMem`, except where bind.c itself
calls `OCI_MemAlloc`, which becomes `DataBuf.internalBuf`).  Categories
with no `switch` case leave `bnd->input` NULL.  Returns
`NULL != bnd->input` paired with the updated bind. -/
def BindAllocData (lib : OCI_Library) (bnd : OCI_Bind) : Bool × OCI_Bind :=
  let bnd :=
    if bnd.is_array then
      match bnd.type with
      | .numeric =>
        if bnd.subtype = OCI_NUM_NUMBER then
          { bnd with data := .arrayMem, input := some .internalVal }
        else if bnd.code = SQLT_VNU then
          { bnd with data := .arrayMem, input := some .internalVal, alloc := true }
        else
          { bnd with data := .arrayMem, input := some .internalVal }
      | .text =>
        if lib.use_wide_char_conv then
          { bnd with data := .arrayMem, input := some .internalVal, alloc := true }
        else
          { bnd with data := .arrayMem, input := some .internalVal }
      | .raw => { bnd with data := .arrayMem, input := some .internalVal }
      | .datetime | .lob | .file | .timestamp | .interval | .object | .collection | .ref =>
        { bnd with data := .arrayMem, input := some .internalVal }
      | _ => bnd
    else
      match bnd.type with
      | .numeric =>
        if bnd.subtype = OCI_NUM_NUMBER then
          { bnd with input := some .internalVal, data := .objHandle }
        else if bnd.code = SQLT_VNU then
          { bnd with input := some .internalVal, data := .internalBuf 22 }
        else
          { bnd with input := some .internalVal, data := .internalBuf bnd.size }
      | .datetime => { bnd with input := some .internalVal, data := .objHandle }
      | .text =>
        if lib.use_wide_char_conv then
          { bnd with data := .internalBuf (bnd.size * (lib.sizeof_otext / lib.sizeof_dbtext)),
                     input := some .internalVal }
        else
          { bnd with data := .internalBuf bnd.size, input := some .internalVal }
      | .lob | .file | .timestamp | .interval | .object | .collection | .ref =>
        { bnd with input := some .internalVal, data := .objHandle }
      | .raw => { bnd with input := some .internalVal, data := .internalBuf bnd.size }
      | _ => bnd
  (bnd.input.isSome, bnd)

/- ================ BindAllocateBuffers (bind.c:40-136) ================ -/

/-- The inline condition of bind.c:88-94 deciding whether an external
input bind needs an internally allocated wire data array (the `OCI_CDT_LONG`
test is duplicated in the source).  The exempted categories alias the
caller's pointer zero-copy instead. -/
def BindExternalNeedsDataArray (lib : OCI_Library) (bnd : OCI_Bind) : Bool :=
  (bnd.type ≠ .raw) && (bnd.type ≠ .long) && (bnd.type ≠ .cursor) &&
  (bnd.type ≠ .long) && (bnd.type ≠ .boolean) &&
  (bnd.type ≠ .numeric || bnd.code = SQLT_VNU) &&
  (bnd.type ≠ .text || lib.use_wide_char_conv)

/-- bind.c:51-61: allocate the indicator array (`OCI_ALLOCATE_DATA` only
allocates when the pointer is still NULL) and, for `SQLT_NTY` wire types,
the object-null-indicator array. -/
def BindAllocateIndicators (bnd : OCI_Bind) (nballoc : Nat) : OCI_Bind :=
  let bnd := if bnd.inds = none then { bnd with inds := some nballoc } else bnd
  if bnd.code = SQLT_NTY ∧ bnd.obj_inds = none then
    { bnd with obj_inds := some nballoc }
  else bnd

/-- bind.c:63-72: PL/SQL table extra info — record the element count and
allocate the array of returned codes. -/
def BindAllocatePlsqlInfo (bnd : OCI_Bind) (nballoc nbelem : Nat) : OCI_Bind :=
  let bnd := { bnd with nbelem := nbelem }
  if bnd.plrcds = none then { bnd with plrcds := some nballoc } else bnd

/-- bind.c:84-110: for external input binds of a non-exempted category,
allocate an internal handle array of `bnd->size * nballoc` bytes and set
the `alloc` mark (on the reused path the old buffer is freed first, which
the pure model renders by overwriting `data`); exempted categories alias
the caller's pointer zero-copy. -/
def BindAllocateDataArray (lib : OCI_Library) (bnd : OCI_Bind)
    (nballoc : Nat) : OCI_Bind :=
  if bnd.alloc_mode = OCI_BAM_EXTERNAL then
    if BindExternalNeedsDataArray lib bnd then
      { bnd with alloc := true, data := .internalBuf (bnd.size * nballoc) }
    else
      { bnd with data := if bnd.input.isSome then .callerAlias else .nullBuf }
  else bnd

/-- bind.c:112-127: allocate the `ub2` data length array (zero-filled,
only when still NULL) and pre-fill its first `nbelem` entries with
`(ub2)bnd->size`. -/
def BindAllocateLens (bnd : OCI_Bind) (nballoc nbelem : Nat) : OCI_Bind :=
  let lens0 := bnd.lens.getD (List.replicate nballoc 0)
  { bnd with lens := some ((List.range lens0.length).map fun i =>
      if i < nbelem then bnd.size % 65536 else lens0.getD i 0) }

/-- `BindAllocateBuffers` (bind.c:40-136): the Buffer Allocator.  Memory
allocations are modelled as succeeding; `OCI_STATUS` short-circuiting is
kept.  The final step mirrors bind.c:131-134, which overwrites
`OCI_STATUS` with `BindAllocData`'s result without consulting it
first. -/
def BindAllocateBuffers (lib : OCI_Library) (ctx : OCI_Context)
    (bnd : OCI_Bind) (mode : Nat) (reused : Bool) (nballoc nbelem : Nat)
    (plsql_table : Bool) (stmt : OCI_Statement) :
    OCI_Context × OCI_Bind :=
  let _ := reused
  let bnd := if ctx.status then BindAllocateIndicators bnd nballoc else bnd
  let bnd :=
    if ctx.status ∧ plsql_table then BindAllocatePlsqlInfo bnd nballoc nbelem
    else bnd
  -- set allocation mode prior to any required data allocation
  let bnd :=
    if ctx.status then { bnd with alloc_mode := stmt.bind_alloc_mode } else bnd
  let bnd :=
    if ctx.status ∧ mode = OCI_BIND_INPUT then BindAllocateDataArray lib bnd nballoc
    else bnd
  let bnd :=
    if ctx.status ∧ (bnd.type = .raw ∨ bnd.type = .text) then
      BindAllocateLens bnd nballoc nbelem
    else bnd
  -- internal allocation if needed (bind.c:131-134, not guarded by OCI_STATUS)
  if bnd.input = none ∧ bnd.alloc_mode = OCI_BAM_INTERNAL then
    let r := BindAllocData lib bnd
    ({ ctx with status := r.1 }, r.2)
  else
    (ctx, bnd)

/- ==================== BindFree (bind.c:546-611) ====================== -/

/-- One release action performed by `BindFree`: which pointer is handed
to which deallocating collaborator. -/
inductive FreedItem
  | arrayHandles
  | inputObj
  | inputMem
  | dataBuf (d : DataBuf)
  | inds
  | objInds
  | lens
  | tmpbuf
  | plrcds
  | name
  | bindSelf
deriving DecidableEq, Repr

/-- The result of `BindFree`: its boolean return, the list of release
actions it performed, and the error it reported (bind.c:546-611 contains
no `Exception*` call, so the error is always `none`). -/
structure FreeResult where
  released : Bool
  freed : List FreedItem
  err : Option BindError
deriving DecidableEq, Repr

/-- `BindFree` (bind.c:546-611).  `OCI_CHECK(NULL == bnd, FALSE)` returns
`FALSE` for a NULL descriptor without doing or reporting anything.  For a
non-NULL descriptor: the internally-owned branch releases the value
objects / input memory per category, the caller-owned branch releases
`buffer.data` only under the `alloc` flag; then the indicator,
object-indicator, length, temporary, status-code and name buffers and the
descriptor itself are released unconditionally. -/
def BindFree : Option OCI_Bind → FreeResult
  | none => ⟨false, [], none⟩
  | some b =>
    let dataFrees : List FreedItem :=
      if b.alloc_mode = OCI_BAM_INTERNAL then
        if b.is_array then [.arrayHandles]
        else
          match b.type with
          | .numeric | .text =>
            if b.type = .numeric ∧ b.subtype = OCI_NUM_NUMBER then [.inputObj]
            else [.inputMem] ++ (if b.alloc then [.dataBuf b.data] else [])
          | _ => [.inputObj]
      else
        if b.alloc then [.dataBuf b.data] else []
    ⟨true, dataFrees ++ [.inds, .objInds, .lens, .tmpbuf, .plrcds, .name, .bindSelf], none⟩

/- ============ Bind Accessor API (bind.c:1036-1295) =================== -/

/-- `BindSetDataSizeAtPos` (bind.c:1049-1080).  Checks: non-NULL bind
(implicit in the embedding), `1 <= position <= buffer.count`,
`size >= 1`.  With a length array present, Text sizes get one extra
`dbtext` unit when still equal to the declared size, are scaled to wire
bytes, and are stored truncated to `ub2`. -/
def BindSetDataSizeAtPos (lib : OCI_Library) (bnd : OCI_Bind)
    (position size : Nat) : Bool × OCI_Bind :=
  if ¬ (1 ≤ position ∧ position ≤ bnd.count) then (false, bnd)
  else if size < 1 then (false, bnd)
  else
    match bnd.lens with
    | none => (false, bnd)
    | some l =>
      let size1 :=
        if bnd.type = .text then
          let s := if bnd.size = size then size + lib.sizeof_dbtext else size
          s * lib.sizeof_dbtext
        else size
      (true, { bnd with lens := some (l.set (position - 1) (size1 % 65536)) })

/-- `BindGetDataSizeAtPos` (bind.c:1098-1125).  Reads the `ub2` length
array entry; for Text, subtracts one `dbtext` unit (32-bit unsigned
arithmetic) when the raw entry still equals the declared size, then
divides by the wire character width. -/
def BindGetDataSizeAtPos (lib : OCI_Library) (bnd : OCI_Bind)
    (position : Nat) : Nat :=
  if ¬ (1 ≤ position ∧ position ≤ bnd.count) then 0
  else
    match bnd.lens with
    | none => 0
    | some l =>
      let r := l.getD (position - 1) 0
      if bnd.type = .text then
        let r := if bnd.size = r then (r + (2 ^ 32 - lib.sizeof_dbtext)) % 2 ^ 32 else r
        r / lib.sizeof_dbtext
      else r

/-- `BindSetCharsetForm` (bind.c:1230-1258).  Returns
`(retval, bind', wire-attribute-touched)`.  The enum check admits only
`OCI_CSF_DEFAULT` and `OCI_CSF_NATIONAL`; only Text and LongData binds
have their stored form and live wire attribute updated. -/
def BindSetCharsetForm (bnd : OCI_Bind) (csfrm : Nat) :
    Bool × OCI_Bind × Bool :=
  if csfrm = OCI_CSF_DEFAULT ∨ csfrm = OCI_CSF_NATIONAL then
    if bnd.type = .text ∨ bnd.type = .long then
      let bnd :=
        if csfrm = OCI_CSF_NATIONAL then { bnd with csfrm := SQLCS_NCHAR }
        else if csfrm = OCI_CSF_DEFAULT then { bnd with csfrm := SQLCS_IMPLICIT }
        else bnd
      (true, bnd, true)
    else (true, bnd, false)
  else (false, bnd, false)

/- ============ BindCheckAvailability (bind.c:141-190) ================= -/

/-- `BindCheckAvailability` (bind.c:141-190): the Bind Registry
availability check.  When not reusing a slot, a full registry raises
`ExceptionMaxBind` and clears `OCI_STATUS`; otherwise the bind array
capacity grows by `OCI_BIND_ARRAY_GROWTH_FACTOR`, capped at
`OCI_BIND_MAX` (`OCI_REALLOCATE_DATA` preserves entries and runs only
while `OCI_STATUS` holds). -/
def BindCheckAvailability (ctx : OCI_Context) (stmt : OCI_Statement)
    (mode : Nat) (reused : Bool) : OCI_Context × OCI_Statement :=
  if ctx.status ∧ ¬ reused then
    if mode = OCI_BIND_INPUT then
      if stmt.ubinds.length ≥ OCI_BIND_MAX then
        (⟨false, some .maxBind⟩, stmt)
      else
        let cap := max stmt.allocated_ubinds
          (min (stmt.ubinds.length + OCI_BIND_ARRAY_GROWTH_FACTOR) OCI_BIND_MAX)
        (ctx, { stmt with allocated_ubinds := cap })
    else
      if stmt.rbinds.length ≥ OCI_BIND_MAX then
        (⟨false, some .maxBind⟩, stmt)
      else
        let cap := max stmt.allocated_rbinds
          (min (stmt.rbinds.length + OCI_BIND_ARRAY_GROWTH_FACTOR) OCI_BIND_MAX)
        (ctx, { stmt with allocated_rbinds := cap })
  else (ctx, stmt)

/- ============== BindAddToStatement (bind.c:299-327) ================== -/

/-- `BindAddToStatement` (bind.c:299-327): append the descriptor to the
input or output list (unless reusing an input slot, which already holds
it) and record its 1-based position in the name map, positive for input
binds and negative for output binds. -/
def BindAddToStatement (stmt : OCI_Statement) (bnd : OCI_Bind)
    (mode : Nat) (reused : Bool) : OCI_Statement :=
  if mode = OCI_BIND_INPUT then
    if ¬ reused then
      let ubinds := stmt.ubinds ++ [bnd]
      { stmt with ubinds := ubinds,
                  map := OCI_HashAddInt stmt.map bnd.name (Int.ofNat ubinds.length) }
    else stmt
  else
    let rbinds := stmt.rbinds ++ [bnd]
    { stmt with rbinds := rbinds,
                map := OCI_HashAddInt stmt.map bnd.name (-(Int.ofNat rbinds.length)) }

/- ================== BindCreate (bind.c:333-540) ====================== -/

/-- The local state of one `BindCreate` call (its local variables plus
the context and the statement it mutates). -/
structure CreateSt where
  ctx : OCI_Context := ⟨true, none⟩
  stmt : OCI_Statement
  bnd : Option OCI_Bind := none
  reused : Bool := false
  index : Int := 0
  prev_index : Int := -1
  nbelem : Nat
  nballoc : Nat
  is_array : Bool := false
  plsql_table : Bool := false
  exec_mode : Nat := OCI_DEFAULT
deriving DecidableEq, Repr

/-- The observable outcome of `BindCreate`: the returned descriptor (or
NULL), the updated statement, the final `OCI_STATUS`, the last reported
error, whether the failure path destroyed the newly built descriptor,
and the `plsql_table` flag the call computed. -/
structure CreateResult where
  bnd : Option OCI_Bind
  stmt : OCI_Statement
  status : Bool
  err : Option BindError
  freedNew : Bool
  plsql_table : Bool
deriving DecidableEq, Repr

/-- bind.c:357-368: in positional bind mode, parse the 1-based position
from the name's numeric suffix and range-check it against
`OCI_BIND_MAX`. -/
def BindCreateCheckIndex (s : CreateSt) (name : String) : CreateSt :=
  if s.stmt.bind_mode = OCI_BIND_BY_POS then
    let index : Int := ostrtol (name.drop 1)
    if index ≤ 0 ∨ index > (OCI_BIND_MAX : Int) then
      { s with index := index, ctx := ⟨false, some .outOfBounds⟩ }
    else { s with index := index }
  else s

/-- bind.c:370-403: for input binds, look the name up in the map.  A
positive hit fails with `ExceptionBindAlreadyUsed` when rebinding is
disabled; with rebinding enabled the existing slot's descriptor is
fetched and its category must match exactly (`ExceptionRebindBadDatatype`
otherwise), else the call becomes a reuse of that slot.  Either way the
1-based index is retargeted to the existing slot. -/
def BindCreateCheckReuse (s : CreateSt) (name : String) (mode : Nat)
    (ty : CDT) : CreateSt :=
  if s.ctx.status then
    if mode = OCI_BIND_INPUT then
      let prev_index := OCI_BindGetInternalIndex s.stmt name
      if prev_index > 0 then
        let s := { s with prev_index := prev_index }
        let s :=
          if ¬ s.stmt.bind_reuse then
            { s with ctx := ⟨false, some .bindAlreadyUsed⟩ }
          else
            let b := s.stmt.ubinds.getD (prev_index.toNat - 1) {}
            if b.type ≠ ty then
              { s with bnd := some b, ctx := ⟨false, some .rebindBadDatatype⟩ }
            else
              { s with bnd := some b, reused := true }
        { s with index := prev_index }
      else { s with prev_index := prev_index }
    else s
  else s

/-- bind.c:407: the `BindCheckAvailability` call, threading context and
statement. -/
def BindCreateAvail (s : CreateSt) (mode : Nat) : CreateSt :=
  let p := BindCheckAvailability s.ctx s.stmt mode s.reused
  { s with ctx := p.1, stmt := p.2 }

/-- bind.c:409-444: once the checks passed, determine the effective
cardinality (a nonzero caller value under a PL/SQL statement type makes a
dynamic table bind; zero inherits the statement's iteration count and
bulk-array flag), raise `nballoc` to the statement's initial iteration
count, and lazily create the name map. -/
def BindCreateSetup (s : CreateSt) : CreateSt :=
  if s.ctx.status then
    let s :=
      if s.nbelem > 0 then
        if OCI_IS_PLSQL_STMT s.stmt.type then
          { s with plsql_table := true, is_array := true }
        else s
      else { s with nbelem := s.stmt.nb_iters, is_array := s.stmt.bind_array }
    let s :=
      if s.nballoc < s.stmt.nb_iters_init then
        { s with nballoc := s.stmt.nb_iters_init }
      else s
    if s.stmt.map = none then { s with stmt := { s.stmt with map := some [] } }
    else s
  else s

/-- bind.c:452-477: the fixed-field initialisation of the (fresh or
reused) descriptor: caller data pointer, category, sizes, wire code,
subtype, array flag, charset form, default direction, name (kept when
already set) and the buffer element count. -/
def BindInitFields (b : OCI_Bind) (data : Bool) (name : String)
    (size : Nat) (ty : CDT) (code subtype : Nat) (is_array : Bool)
    (count : Nat) : OCI_Bind :=
  { b with
    input := if data then some InputPtr.caller else none,
    type := ty, size := size, code := code, subtype := subtype,
    is_array := is_array, csfrm := OCI_CSF_NONE,
    direction := OCI_BDM_IN_OUT,
    name := if b.name = "" then name else b.name,
    count := count }

/-- bind.c:446-499: allocate the descriptor (`OCI_ALLOCATE_DATA` leaves a
reused descriptor in place), populate its fixed fields, run
`BindAllocateBuffers`, and compute the execution mode (`OCI_CDT_LONG`
binds and output binds use data-at-execute; the `OCI_Long` maxsize rescale
mutates the external value object and is out of model). -/
def BindCreateInit (lib : OCI_Library) (s : CreateSt) (data : Bool)
    (name : String) (mode : Nat) (size : Nat) (ty : CDT)
    (code subtype : Nat) : CreateSt :=
  let s := if s.ctx.status ∧ s.bnd = none then { s with bnd := some {} } else s
  if s.ctx.status then
    match s.bnd with
    | none => s
    | some b =>
      let b := BindInitFields b data name size ty code subtype s.is_array s.nbelem
      let p := BindAllocateBuffers lib s.ctx b mode s.reused s.nballoc s.nbelem
        s.plsql_table s.stmt
      let exec_mode :=
        if p.2.type = .long then OCI_DATA_AT_EXEC
        else if mode = OCI_BIND_OUTPUT then OCI_DATA_AT_EXEC
        else OCI_DEFAULT
      { s with ctx := p.1, bnd := some p.2, exec_mode := exec_mode }
  else s

/-- bind.c:501-539: perform the wire-level bind (the OCI calls are
out-of-scope collaborators modelled as succeeding and delivering a bound
handle; the NCLOB charset-form attribute write touches only that wire
handle), register the descriptor (the C code mutates the reused slot's
descriptor in place, which the pure model renders by writing the updated
descriptor back to its slot before `BindAddToStatement`), and on failure
destroy the descriptor only when it was newly built
(`prev_index == -1`). -/
def BindCreateFinish (s : CreateSt) (mode : Nat) : CreateResult :=
  let s :=
    if s.ctx.status then
      match s.bnd with
      | some b => { s with bnd := some { b with handle := true } }
      | none => s
    else s
  let s :=
    if s.ctx.status then
      match s.bnd with
      | some b =>
        let stmt :=
          if s.reused then
            { s.stmt with ubinds := s.stmt.ubinds.set (s.prev_index.toNat - 1) b }
          else s.stmt
        { s with stmt := BindAddToStatement stmt b mode s.reused }
      | none => s
    else s
  if ¬ s.ctx.status ∧ s.bnd.isSome ∧ s.prev_index = -1 then
    ⟨none, s.stmt, s.ctx.status, s.ctx.err, true, s.plsql_table⟩
  else
    ⟨s.bnd, s.stmt, s.ctx.status, s.ctx.err, false, s.plsql_table⟩

/-- `BindCreate` (bind.c:333-540): the Bind Descriptor Builder, as the
composition of its stages.  `data` records whether the caller supplied a
non-NULL data pointer. -/
def BindCreate (lib : OCI_Library) (stmt : OCI_Statement) (data : Bool)
    (name : String) (mode : Nat) (size : Nat) (ty : CDT)
    (code subtype : Nat) (nbelem : Nat) : CreateResult :=
  let s0 : CreateSt := { stmt := stmt, nbelem := nbelem, nballoc := nbelem }
  BindCreateFinish
    (BindCreateInit lib
      (BindCreateSetup
        (BindCreateAvail
          (BindCreateCheckReuse (BindCreateCheckIndex s0 name) name mode ty)
          mode))
      data name mode size ty code subtype)
    mode

/- ==================== concrete sample states ========================= -/

/-- A narrow-character library configuration (1:1 host/wire width, no
wide-character conversion). -/
def libNarrow : OCI_Library := ⟨false, 1, 1⟩

/-- A wide-character library configuration (4-byte host characters,
2-byte wire characters, conversion enabled). -/
def libWide : OCI_Library := ⟨true, 2, 4⟩

/-- A caller-owned Text bind whose wire buffer aliases the caller's
pointer zero-copy. -/
def sampleAliasBind : OCI_Bind :=
  { type := CDT.text, alloc_mode := OCI_BAM_EXTERNAL,
    input := some InputPtr.caller, data := DataBuf.callerAlias }

/-- A caller-supplied Text bind before buffer allocation. -/
def sampleTextInput : OCI_Bind :=
  { type := CDT.text, size := 5, input := some InputPtr.caller }

/-- An input Text bind of element size 10 already registered at slot 1. -/
def bindX : OCI_Bind :=
  { name := "X", type := CDT.text, size := 10, count := 1 }

/-- A statement with rebinding enabled and `X` bound as input bind 1. -/
def stReuseOn : OCI_Statement :=
  { bind_reuse := true, map := some [("X", 1)], ubinds := [bindX] }

/-- The same statement with rebinding disabled. -/
def stReuseOff : OCI_Statement :=
  { bind_reuse := false, map := some [("X", 1)], ubinds := [bindX] }

/-- A fresh PL/SQL-block statement with no binds yet. -/
def stFresh : OCI_Statement :=
  { type := OCI_CST_BEGIN, nb_iters := 3, nb_iters_init := 4 }

/-- A statement whose input-bind registry is already at `OCI_BIND_MAX`. -/
def stFull : OCI_Statement :=
  { ubinds := List.replicate OCI_BIND_MAX {} }

/- ===================== helper lemmas ================================= -/

/-- Reading back the entry just written into an array slot. -/
theorem getD_set_self {α : Type} (l : List α) (i : Nat) (a d : α)
    (h : i < l.length) : (l.set i a).getD i d = a := by
  rw [List.getD_eq_getElem?_getD, List.getElem?_set_self h]
  rfl

/-- Reading an entry of a freshly built length array. -/
theorem getD_range_map (f : Nat → Nat) (n i d : Nat) (h : i < n) :
    ((List.range n).map f).getD i d = f i := by
  rw [List.getD_eq_getElem?_getD, List.getElem?_map, List.getElem?_range h]
  rfl

/-! Field-preservation lemmas for the Buffer Allocator's steps. -/

@[simp] theorem allocInds_type (bnd : OCI_Bind) (n : Nat) :
    (BindAllocateIndicators bnd n).type = bnd.type := by
  simp only [BindAllocateIndicators]; split_ifs <;> rfl

@[simp] theorem allocInds_code (bnd : OCI_Bind) (n : Nat) :
    (BindAllocateIndicators bnd n).code = bnd.code := by
  simp only [BindAllocateIndicators]; split_ifs <;> rfl

@[simp] theorem allocInds_size (bnd : OCI_Bind) (n : Nat) :
    (BindAllocateIndicators bnd n).size = bnd.size := by
  simp only [BindAllocateIndicators]; split_ifs <;> rfl

@[simp] theorem allocInds_subtype (bnd : OCI_Bind) (n : Nat) :
    (BindAllocateIndicators bnd n).subtype = bnd.subtype := by
  simp only [BindAllocateIndicators]; split_ifs <;> rfl

@[simp] theorem allocInds_alloc (bnd : OCI_Bind) (n : Nat) :
    (BindAllocateIndicators bnd n).alloc = bnd.alloc := by
  simp only [BindAllocateIndicators]; split_ifs <;> rfl

@[simp] theorem allocInds_alloc_mode (bnd : OCI_Bind) (n : Nat) :
    (BindAllocateIndicators bnd n).alloc_mode = bnd.alloc_mode := by
  simp only [BindAllocateIndicators]; split_ifs <;> rfl

@[simp] theorem allocInds_data (bnd : OCI_Bind) (n : Nat) :
    (BindAllocateIndicators bnd n).data = bnd.data := by
  simp only [BindAllocateIndicators]; split_ifs <;> rfl

@[simp] theorem allocInds_input (bnd : OCI_Bind) (n : Nat) :
    (BindAllocateIndicators bnd n).input = bnd.input := by
  simp only [BindAllocateIndicators]; split_ifs <;> rfl

@[simp] theorem allocInds_lens (bnd : OCI_Bind) (n : Nat) :
    (BindAllocateIndicators bnd n).lens = bnd.lens := by
  simp only [BindAllocateIndicators]; split_ifs <;> rfl

@[simp] theorem allocInds_count (bnd : OCI_Bind) (n : Nat) :
    (BindAllocateIndicators bnd n).count = bnd.count := by
  simp only [BindAllocateIndicators]; split_ifs <;> rfl

@[simp] theorem allocInds_plrcds (bnd : OCI_Bind) (n : Nat) :
    (BindAllocateIndicators bnd n).plrcds = bnd.plrcds := by
  simp only [BindAllocateIndicators]; split_ifs <;> rfl

@[simp] theorem allocInds_is_array (bnd : OCI_Bind) (n : Nat) :
    (BindAllocateIndicators bnd n).is_array = bnd.is_array := by
  simp only [BindAllocateIndicators]; split_ifs <;> rfl

@[simp] theorem allocInds_inds (bnd : OCI_Bind) (n : Nat) :
    (BindAllocateIndicators bnd n).inds = some (bnd.inds.getD n) := by
  cases h : bnd.inds <;> simp only [BindAllocateIndicators, h] <;>
    split_ifs <;> simp_all

@[simp] theorem allocPlsql_type (bnd : OCI_Bind) (a b : Nat) :
    (BindAllocatePlsqlInfo bnd a b).type = bnd.type := by
  simp only [BindAllocatePlsqlInfo]; split_ifs <;> rfl

@[simp] theorem allocPlsql_code (bnd : OCI_Bind) (a b : Nat) :
    (BindAllocatePlsqlInfo bnd a b).code = bnd.code := by
  simp only [BindAllocatePlsqlInfo]; split_ifs <;> rfl

@[simp] theorem allocPlsql_size (bnd : OCI_Bind) (a b : Nat) :
    (BindAllocatePlsqlInfo bnd a b).size = bnd.size := by
  simp only [BindAllocatePlsqlInfo]; split_ifs <;> rfl

@[simp] theorem allocPlsql_subtype (bnd : OCI_Bind) (a b : Nat) :
    (BindAllocatePlsqlInfo bnd a b).subtype = bnd.subtype := by
  simp only [BindAllocatePlsqlInfo]; split_ifs <;> rfl

@[simp] theorem allocPlsql_alloc (bnd : OCI_Bind) (a b : Nat) :
    (BindAllocatePlsqlInfo bnd a b).alloc = bnd.alloc := by
  simp only [BindAllocatePlsqlInfo]; split_ifs <;> rfl

@[simp] theorem allocPlsql_alloc_mode (bnd : OCI_Bind) (a b : Nat) :
    (BindAllocatePlsqlInfo bnd a b).alloc_mode = bnd.alloc_mode := by
  simp only [BindAllocatePlsqlInfo]; split_ifs <;> rfl

@[simp] theorem allocPlsql_data (bnd : OCI_Bind) (a b : Nat) :
    (BindAllocatePlsqlInfo bnd a b).data = bnd.data := by
  simp only [BindAllocatePlsqlInfo]; split_ifs <;> rfl

@[simp] theorem allocPlsql_input (bnd : OCI_Bind) (a b : Nat) :
    (BindAllocatePlsqlInfo bnd a b).input = bnd.input := by
  simp only [BindAllocatePlsqlInfo]; split_ifs <;> rfl

@[simp] theorem allocPlsql_lens (bnd : OCI_Bind) (a b : Nat) :
    (BindAllocatePlsqlInfo bnd a b).lens = bnd.lens := by
  simp only [BindAllocatePlsqlInfo]; split_ifs <;> rfl

@[simp] theorem allocPlsql_count (bnd : OCI_Bind) (a b : Nat) :
    (BindAllocatePlsqlInfo bnd a b).count = bnd.count := by
  simp only [BindAllocatePlsqlInfo]; split_ifs <;> rfl

@[simp] theorem allocPlsql_inds (bnd : OCI_Bind) (a b : Nat) :
    (BindAllocatePlsqlInfo bnd a b).inds = bnd.inds := by
  simp only [BindAllocatePlsqlInfo]; split_ifs <;> rfl

@[simp] theorem allocPlsql_is_array (bnd : OCI_Bind) (a b : Nat) :
    (BindAllocatePlsqlInfo bnd a b).is_array = bnd.is_array := by
  simp only [BindAllocatePlsqlInfo]; split_ifs <;> rfl

@[simp] theorem allocPlsql_plrcds (bnd : OCI_Bind) (a b : Nat) :
    (BindAllocatePlsqlInfo bnd a b).plrcds = some (bnd.plrcds.getD a) := by
  cases h : bnd.plrcds <;> simp only [BindAllocatePlsqlInfo] <;>
    split_ifs <;> simp_all

@[simp] theorem allocData_type (lib : OCI_Library) (bnd : OCI_Bind) (n : Nat) :
    (BindAllocateDataArray lib bnd n).type = bnd.type := by
  simp only [BindAllocateDataArray]; split_ifs <;> rfl

@[simp] theorem allocData_code (lib : OCI_Library) (bnd : OCI_Bind) (n : Nat) :
    (BindAllocateDataArray lib bnd n).code = bnd.code := by
  simp only [BindAllocateDataArray]; split_ifs <;> rfl

@[simp] theorem allocData_size (lib : OCI_Library) (bnd : OCI_Bind) (n : Nat) :
    (BindAllocateDataArray lib bnd n).size = bnd.size := by
  simp only [BindAllocateDataArray]; split_ifs <;> rfl

@[simp] theorem allocData_subtype (lib : OCI_Library) (bnd : OCI_Bind) (n : Nat) :
    (BindAllocateDataArray lib bnd n).subtype = bnd.subtype := by
  simp only [BindAllocateDataArray]; split_ifs <;> rfl

@[simp] theorem allocData_alloc_mode (lib : OCI_Library) (bnd : OCI_Bind) (n : Nat) :
    (BindAllocateDataArray lib bnd n).alloc_mode = bnd.alloc_mode := by
  simp only [BindAllocateDataArray]; split_ifs <;> rfl

@[simp] theorem allocData_input (lib : OCI_Library) (bnd : OCI_Bind) (n : Nat) :
    (BindAllocateDataArray lib bnd n).input = bnd.input := by
  simp only [BindAllocateDataArray]; split_ifs <;> rfl

@[simp] theorem allocData_lens (lib : OCI_Library) (bnd : OCI_Bind) (n : Nat) :
    (BindAllocateDataArray lib bnd n).lens = bnd.lens := by
  simp only [BindAllocateDataArray]; split_ifs <;> rfl

@[simp] theorem allocData_count (lib : OCI_Library) (bnd : OCI_Bind) (n : Nat) :
    (BindAllocateDataArray lib bnd n).count = bnd.count := by
  simp only [BindAllocateDataArray]; split_ifs <;> rfl

@[simp] theorem allocData_inds (lib : OCI_Library) (bnd : OCI_Bind) (n : Nat) :
    (BindAllocateDataArray lib bnd n).inds = bnd.inds := by
  simp only [BindAllocateDataArray]; split_ifs <;> rfl

@[simp] theorem allocData_plrcds (lib : OCI_Library) (bnd : OCI_Bind) (n : Nat) :
    (BindAllocateDataArray lib bnd n).plrcds = bnd.plrcds := by
  simp only [BindAllocateDataArray]; split_ifs <;> rfl

@[simp] theorem allocData_is_array (lib : OCI_Library) (bnd : OCI_Bind) (n : Nat) :
    (BindAllocateDataArray lib bnd n).is_array = bnd.is_array := by
  simp only [BindAllocateDataArray]; split_ifs <;> rfl

@[simp] theorem allocLens_type (bnd : OCI_Bind) (a b : Nat) :
    (BindAllocateLens bnd a b).type = bnd.type := rfl

@[simp] theorem allocLens_code (bnd : OCI_Bind) (a b : Nat) :
    (BindAllocateLens bnd a b).code = bnd.code := rfl

@[simp] theorem allocLens_size (bnd : OCI_Bind) (a b : Nat) :
    (BindAllocateLens bnd a b).size = bnd.size := rfl

@[simp] theorem allocLens_subtype (bnd : OCI_Bind) (a b : Nat) :
    (BindAllocateLens bnd a b).subtype = bnd.subtype := rfl

@[simp] theorem allocLens_alloc (bnd : OCI_Bind) (a b : Nat) :
    (BindAllocateLens bnd a b).alloc = bnd.alloc := rfl

@[simp] theorem allocLens_alloc_mode (bnd : OCI_Bind) (a b : Nat) :
    (BindAllocateLens bnd a b).alloc_mode = bnd.alloc_mode := rfl

@[simp] theorem allocLens_data (bnd : OCI_Bind) (a b : Nat) :
    (BindAllocateLens bnd a b).data = bnd.data := rfl

@[simp] theorem allocLens_input (bnd : OCI_Bind) (a b : Nat) :
    (BindAllocateLens bnd a b).input = bnd.input := rfl

@[simp] theorem allocLens_count (bnd : OCI_Bind) (a b : Nat) :
    (BindAllocateLens bnd a b).count = bnd.count := rfl

@[simp] theorem allocLens_inds (bnd : OCI_Bind) (a b : Nat) :
    (BindAllocateLens bnd a b).inds = bnd.inds := rfl

@[simp] theorem allocLens_plrcds (bnd : OCI_Bind) (a b : Nat) :
    (BindAllocateLens bnd a b).plrcds = bnd.plrcds := rfl

@[simp] theorem allocLens_is_array (bnd : OCI_Bind) (a b : Nat) :
    (BindAllocateLens bnd a b).is_array = bnd.is_array := rfl

/-- The exemption condition only reads the category, the wire code and
the library configuration. -/
theorem needsDataArray_congr (lib : OCI_Library) (b b' : OCI_Bind)
    (ht : b.type = b'.type) (hc : b.code = b'.code) :
    BindExternalNeedsDataArray lib b = BindExternalNeedsDataArray lib b' := by
  simp [BindExternalNeedsDataArray, ht, hc]

/-- The external-mode data-buffer policy of `BindAllocateDataArray`
(bind.c:84-110): non-exempted categories get a fresh internal buffer of
`size * nballoc` bytes and the `alloc` mark, exempted ones alias the
caller pointer with `alloc` untouched. -/
theorem allocDataArray_spec (lib : OCI_Library) (bnd : OCI_Bind) (n : Nat)
    (hmode : bnd.alloc_mode = OCI_BAM_EXTERNAL) :
    (BindExternalNeedsDataArray lib bnd = true →
      (BindAllocateDataArray lib bnd n).alloc = true ∧
      (BindAllocateDataArray lib bnd n).data = DataBuf.internalBuf (bnd.size * n)) ∧
    (BindExternalNeedsDataArray lib bnd = false →
      (BindAllocateDataArray lib bnd n).alloc = bnd.alloc ∧
      (BindAllocateDataArray lib bnd n).data
        = (if bnd.input.isSome then DataBuf.callerAlias else DataBuf.nullBuf)) := by
  constructor <;> intro h <;> simp [BindAllocateDataArray, hmode, h]

@[simp] theorem needs_allocInds (lib : OCI_Library) (bnd : OCI_Bind) (n : Nat) :
    BindExternalNeedsDataArray lib (BindAllocateIndicators bnd n)
      = BindExternalNeedsDataArray lib bnd :=
  needsDataArray_congr lib _ _ (allocInds_type bnd n) (allocInds_code bnd n)

@[simp] theorem needs_allocPlsql (lib : OCI_Library) (bnd : OCI_Bind) (a b : Nat) :
    BindExternalNeedsDataArray lib (BindAllocatePlsqlInfo bnd a b)
      = BindExternalNeedsDataArray lib bnd :=
  needsDataArray_congr lib _ _ (allocPlsql_type bnd a b) (allocPlsql_code bnd a b)

@[simp] theorem needs_set_alloc_mode (lib : OCI_Library) (bnd : OCI_Bind) (m : Nat) :
    BindExternalNeedsDataArray lib { bnd with alloc_mode := m }
      = BindExternalNeedsDataArray lib bnd :=
  needsDataArray_congr lib _ _ rfl rfl

/-- Composite behaviour of the Buffer Allocator for external
(caller-owned) input binds: the allocation mode is taken from the
statement, the non-exempted categories get the internal data array and
the `alloc` mark, the exempted ones alias the caller's pointer and keep
`alloc` untouched, and `OCI_STATUS` is not altered. -/
theorem BindAllocateBuffers_external (lib : OCI_Library) (ctx : OCI_Context)
    (bnd : OCI_Bind) (reused : Bool) (nballoc nbelem : Nat) (pl : Bool)
    (stmt : OCI_Statement)
    (hst : ctx.status = true)
    (hsm : stmt.bind_alloc_mode = OCI_BAM_EXTERNAL) :
    (BindAllocateBuffers lib ctx bnd OCI_BIND_INPUT reused nballoc nbelem pl stmt).1 = ctx ∧
    (BindAllocateBuffers lib ctx bnd OCI_BIND_INPUT reused nballoc nbelem pl stmt).2.alloc_mode
      = OCI_BAM_EXTERNAL ∧
    (BindExternalNeedsDataArray lib bnd = true →
      (BindAllocateBuffers lib ctx bnd OCI_BIND_INPUT reused nballoc nbelem pl stmt).2.alloc = true ∧
      (BindAllocateBuffers lib ctx bnd OCI_BIND_INPUT reused nballoc nbelem pl stmt).2.data
        = DataBuf.internalBuf (bnd.size * nballoc)) ∧
    (BindExternalNeedsDataArray lib bnd = false →
      (BindAllocateBuffers lib ctx bnd OCI_BIND_INPUT reused nballoc nbelem pl stmt).2.alloc
        = bnd.alloc ∧
      (BindAllocateBuffers lib ctx bnd OCI_BIND_INPUT reused nballoc nbelem pl stmt).2.data
        = (if bnd.input.isSome then DataBuf.callerAlias else DataBuf.nullBuf)) := by
  cases htype : bnd.type
  case numeric =>
    by_cases hco : bnd.code = SQLT_VNU <;> by_cases hpl : pl = true <;>
      simp [BindAllocateBuffers, BindAllocateDataArray,
        BindExternalNeedsDataArray, hst, hsm, htype, hco, hpl,
        OCI_BAM_EXTERNAL, OCI_BAM_INTERNAL]
  case text =>
    by_cases hw : lib.use_wide_char_conv = true <;> by_cases hpl : pl = true <;>
      simp [BindAllocateBuffers, BindAllocateDataArray,
        BindExternalNeedsDataArray, hst, hsm, htype, hw, hpl,
        OCI_BAM_EXTERNAL, OCI_BAM_INTERNAL]
  all_goals
    by_cases hpl : pl = true <;>
      simp [BindAllocateBuffers, BindAllocateDataArray,
        BindExternalNeedsDataArray, hst, hsm, htype, hpl,
        OCI_BAM_EXTERNAL, OCI_BAM_INTERNAL]

/- ========================= claim theorems ============================ -/

/-- C1 (counterexample): the claimed set/get round-trip fails at the
boundary the claim singles out.  With a 1:1 host/wire width
(`sizeof(dbtext) = 1`), a Text bind declared with element size 10 and a
length array, `setDataSizeAtPos(1, 10)` succeeds but
`getDataSizeAtPos(1)` returns 11, not 10: the setter stores
`(10 + 1) * 1 = 11`, and the getter's reverse adjustment triggers only
when the stored byte value equals the declared size, which `11` does
not. -/
theorem C1_counterexample :
    (BindSetDataSizeAtPos ⟨false, 1, 1⟩
      { type := CDT.text, size := 10, count := 1, lens := some [12] } 1 10).1 = true ∧
    BindGetDataSizeAtPos ⟨false, 1, 1⟩
      (BindSetDataSizeAtPos ⟨false, 1, 1⟩
        { type := CDT.text, size := 10, count := 1, lens := some [12] } 1 10).2 1 ≠ 10 := by
  decide

/-- C1 (amended): for a Text bind with a length array, a wire character
width of 1 or 2, and a position `1 ≤ p ≤ cardinality`,
`setDataSizeAtPos(p, s)` followed by `getDataSizeAtPos(p)` returns
exactly `s` for every `s ≥ 1` such that neither `s` nor
`s * sizeof(dbtext)` equals the declared element size and
`s * sizeof(dbtext)` fits in a `ub2`; at the excluded boundary
`s = declared size` the getter instead returns `s + sizeof(dbtext)`. -/
theorem C1_text_size_roundtrip (lib : OCI_Library) (bnd : OCI_Bind)
    (l : List Nat) (p s : Nat)
    (hd : lib.sizeof_dbtext = 1 ∨ lib.sizeof_dbtext = 2)
    (ht : bnd.type = CDT.text)
    (hl : bnd.lens = some l)
    (hlen : bnd.count ≤ l.length)
    (hp1 : 1 ≤ p) (hp2 : p ≤ bnd.count)
    (hs : 1 ≤ s)
    (h1 : s ≠ bnd.size)
    (h2 : s * lib.sizeof_dbtext ≠ bnd.size)
    (hov : s * lib.sizeof_dbtext < 65536) :
    (BindSetDataSizeAtPos lib bnd p s).1 = true ∧
    BindGetDataSizeAtPos lib (BindSetDataSizeAtPos lib bnd p s).2 p = s := by
  have hcond : 1 ≤ p ∧ p ≤ bnd.count := ⟨hp1, hp2⟩
  have hns : ¬ s < 1 := by omega
  have hbs : ¬ bnd.size = s := fun h => h1 h.symm
  have hbs2 : ¬ bnd.size = s * lib.sizeof_dbtext := fun h => h2 h.symm
  have hdpos : 0 < lib.sizeof_dbtext := by rcases hd with h | h <;> omega
  have hmod : s * lib.sizeof_dbtext % 65536 = s * lib.sizeof_dbtext :=
    Nat.mod_eq_of_lt hov
  have hlt : p - 1 < l.length := by omega
  have hstep : BindSetDataSizeAtPos lib bnd p s
      = (true, { bnd with
          lens := some (l.set (p - 1) (s * lib.sizeof_dbtext % 65536)) }) := by
    simp [BindSetDataSizeAtPos, hcond, hns, hl, ht, hbs]
  rw [hstep]
  refine ⟨rfl, ?_⟩
  have hset : (l.set (p - 1) (s * lib.sizeof_dbtext))[p - 1]?.getD 0
      = s * lib.sizeof_dbtext := by
    rw [List.getElem?_set_self hlt]
    rfl
  have key : BindGetDataSizeAtPos lib
      { bnd with lens := some (l.set (p - 1) (s * lib.sizeof_dbtext % 65536)) } p
      = s * lib.sizeof_dbtext / lib.sizeof_dbtext := by
    simp [BindGetDataSizeAtPos, hcond, ht, hmod, hset, hbs2]
  rw [key]
  rcases hd with h | h <;> rw [h] <;> omega

/-- Witness for C1's amended round-trip at a concrete input (1:2
host/wire width, declared size 10, position 1, requested size 3). -/
theorem C1_text_size_roundtrip_witness :
    (BindSetDataSizeAtPos ⟨true, 2, 4⟩
      { type := CDT.text, size := 10, count := 1, lens := some [0] } 1 3).1 = true ∧
    BindGetDataSizeAtPos ⟨true, 2, 4⟩
      (BindSetDataSizeAtPos ⟨true, 2, 4⟩
        { type := CDT.text, size := 10, count := 1, lens := some [0] } 1 3).2 1 = 3 :=
  C1_text_size_roundtrip ⟨true, 2, 4⟩
    { type := CDT.text, size := 10, count := 1, lens := some [0] } [0] 1 3
    (Or.inr rfl) rfl rfl (by decide) (by decide) (by decide) (by decide)
    (by decide) (by decide) (by decide)

/-- C3 (confirmed): on the external (CallerOwned) branch of `BindFree`
the data buffer is passed to the deallocator exactly when the subsystem
set the `alloc` mark for it, and a caller pointer that the Buffer
Allocator aliased zero-copy (a fresh external input bind with `alloc`
still clear) is never passed to the deallocator. -/
theorem C3_caller_pointer_never_freed (lib : OCI_Library)
    (ctx : OCI_Context) (bnd : OCI_Bind) (reused : Bool)
    (nballoc nbelem : Nat) (pl : Bool) (stmt : OCI_Statement)
    (hm : bnd.alloc_mode = OCI_BAM_EXTERNAL)
    (hst : ctx.status = true)
    (hsm : stmt.bind_alloc_mode = OCI_BAM_EXTERNAL) :
    (FreedItem.dataBuf bnd.data ∈ (BindFree (some bnd)).freed ↔ bnd.alloc = true) ∧
    (bnd.alloc = false →
      FreedItem.dataBuf DataBuf.callerAlias ∉
        (BindFree (some
          (BindAllocateBuffers lib ctx bnd OCI_BIND_INPUT reused nballoc nbelem pl stmt).2)).freed) := by
  constructor
  · by_cases ha : bnd.alloc = true <;>
      simp [BindFree, hm, ha, OCI_BAM_EXTERNAL, OCI_BAM_INTERNAL]
  · intro ha
    obtain ⟨-, hmode, h1, h2⟩ :=
      BindAllocateBuffers_external lib ctx bnd reused nballoc nbelem pl stmt hst hsm
    by_cases hnd : BindExternalNeedsDataArray lib bnd = true
    · obtain ⟨ha2, hd2⟩ := h1 hnd
      simp [BindFree, hmode, ha2, hd2, OCI_BAM_EXTERNAL, OCI_BAM_INTERNAL]
    · rw [Bool.not_eq_true] at hnd
      obtain ⟨ha2, hd2⟩ := h2 hnd
      simp [BindFree, hmode, ha2, ha, OCI_BAM_EXTERNAL, OCI_BAM_INTERNAL]

/-- Witness for C3 at a concrete caller-owned text bind (no conversion,
so the allocator aliased the caller pointer zero-copy). -/
theorem C3_caller_pointer_never_freed_witness :
    (FreedItem.dataBuf sampleAliasBind.data ∈ (BindFree (some sampleAliasBind)).freed
      ↔ sampleAliasBind.alloc = true) ∧
    (sampleAliasBind.alloc = false →
      FreedItem.dataBuf DataBuf.callerAlias ∉
        (BindFree (some
          (BindAllocateBuffers libNarrow ⟨true, none⟩ sampleAliasBind
            OCI_BIND_INPUT false 1 1 false {}).2)).freed) :=
  C3_caller_pointer_never_freed libNarrow ⟨true, none⟩ sampleAliasBind
    false 1 1 false {} rfl rfl rfl

/-- C6 (confirmed): for an external (caller-supplied) input bind, the
Buffer Allocator allocates an internal data buffer of
`elementSize * nballoc` bytes and sets the `alloc` mark exactly for the
non-exempted categories (the exempted set being raw, long, cursor,
boolean, numeric with a non-`SQLT_VNU` wire code, and text without wide
character conversion); for exempted categories it aliases the caller's
pointer zero-copy and leaves the `alloc` mark untouched. -/
theorem C6_external_alloc_policy (lib : OCI_Library) (ctx : OCI_Context)
    (bnd : OCI_Bind) (reused : Bool) (nballoc nbelem : Nat) (pl : Bool)
    (stmt : OCI_Statement)
    (hst : ctx.status = true)
    (hsm : stmt.bind_alloc_mode = OCI_BAM_EXTERNAL)
    (hin : bnd.input.isSome = true) :
    (BindExternalNeedsDataArray lib bnd = true →
      (BindAllocateBuffers lib ctx bnd OCI_BIND_INPUT reused nballoc nbelem pl stmt).2.alloc = true ∧
      (BindAllocateBuffers lib ctx bnd OCI_BIND_INPUT reused nballoc nbelem pl stmt).2.data
        = DataBuf.internalBuf (bnd.size * nballoc)) ∧
    (BindExternalNeedsDataArray lib bnd = false →
      (BindAllocateBuffers lib ctx bnd OCI_BIND_INPUT reused nballoc nbelem pl stmt).2.data
        = DataBuf.callerAlias ∧
      (BindAllocateBuffers lib ctx bnd OCI_BIND_INPUT reused nballoc nbelem pl stmt).2.alloc
        = bnd.alloc) := by
  obtain ⟨-, -, h1, h2⟩ :=
    BindAllocateBuffers_external lib ctx bnd reused nballoc nbelem pl stmt hst hsm
  refine ⟨h1, fun h => ?_⟩
  obtain ⟨ha, hd⟩ := h2 h
  exact ⟨by rw [hd, hin]; rfl, ha⟩

/-- Witness for C6 at a concrete caller-supplied text bind under wide
character conversion (non-exempted, so a `5 * 3` byte internal buffer is
allocated). -/
theorem C6_external_alloc_policy_witness :
    (BindExternalNeedsDataArray libWide sampleTextInput = true →
      (BindAllocateBuffers libWide ⟨true, none⟩ sampleTextInput
        OCI_BIND_INPUT false 3 3 false {}).2.alloc = true ∧
      (BindAllocateBuffers libWide ⟨true, none⟩ sampleTextInput
        OCI_BIND_INPUT false 3 3 false {}).2.data
        = DataBuf.internalBuf (sampleTextInput.size * 3)) ∧
    (BindExternalNeedsDataArray libWide sampleTextInput = false →
      (BindAllocateBuffers libWide ⟨true, none⟩ sampleTextInput
        OCI_BIND_INPUT false 3 3 false {}).2.data = DataBuf.callerAlias ∧
      (BindAllocateBuffers libWide ⟨true, none⟩ sampleTextInput
        OCI_BIND_INPUT false 3 3 false {}).2.alloc = sampleTextInput.alloc) :=
  C6_external_alloc_policy libWide ⟨true, none⟩ sampleTextInput
    false 3 3 false {} rfl rfl rfl

/-- C9 (confirmed): `BindFree` on a NULL descriptor performs no release
and reports no error (it returns `FALSE` through `OCI_CHECK` without
reaching any `Exception*` call); on any non-NULL descriptor it always
releases the indicator array, the object-null-indicator array, the
length array, the status-code array and the name string, whichever
branch built them and whatever the ownership mode. -/
theorem C9_free_null_noop_always_releases (b : OCI_Bind) :
    BindFree none = ⟨false, [], none⟩ ∧
    (BindFree (some b)).err = none ∧
    FreedItem.inds ∈ (BindFree (some b)).freed ∧
    FreedItem.objInds ∈ (BindFree (some b)).freed ∧
    FreedItem.lens ∈ (BindFree (some b)).freed ∧
    FreedItem.plrcds ∈ (BindFree (some b)).freed ∧
    FreedItem.name ∈ (BindFree (some b)).freed := by
  refine ⟨rfl, rfl, ?_, ?_, ?_, ?_, ?_⟩ <;> simp [BindFree]

/-- C10 (confirmed): `BindSetCharsetForm` with a valid charset-form value
on a bind that is neither Text nor LongData returns success while leaving
the descriptor unchanged and touching no wire attribute. -/
theorem C10_set_charset_form_frame (bnd : OCI_Bind) (csfrm : Nat)
    (hv : csfrm = OCI_CSF_DEFAULT ∨ csfrm = OCI_CSF_NATIONAL)
    (ht : ¬ bnd.type = CDT.text) (hl : ¬ bnd.type = CDT.long) :
    BindSetCharsetForm bnd csfrm = (true, bnd, false) := by
  rcases hv with h | h <;>
    simp [BindSetCharsetForm, h, ht, hl, OCI_CSF_DEFAULT, OCI_CSF_NATIONAL]

/-- Witness for C10 at a concrete datetime bind and the National charset
form. -/
theorem C10_set_charset_form_frame_witness :
    BindSetCharsetForm { type := CDT.datetime } OCI_CSF_NATIONAL
      = (true, { type := CDT.datetime }, false) :=
  C10_set_charset_form_frame { type := CDT.datetime } OCI_CSF_NATIONAL
    (Or.inr rfl) (by decide) (by decide)

/-! Further helper lemmas about the allocator and the lazily created
name map, used to evaluate `BindCreate` stage by stage. -/

@[simp] theorem mapfill_ubinds (c : Prop) [Decidable c] (st : OCI_Statement)
    (m : Option (List (String × Int))) :
    (if c then { st with map := m } else st).ubinds = st.ubinds := by
  split_ifs <;> rfl

@[simp] theorem mapfill_rbinds (c : Prop) [Decidable c] (st : OCI_Statement)
    (m : Option (List (String × Int))) :
    (if c then { st with map := m } else st).rbinds = st.rbinds := by
  split_ifs <;> rfl

@[simp] theorem mapfill_bind_alloc_mode (c : Prop) [Decidable c]
    (st : OCI_Statement) (m : Option (List (String × Int))) :
    (if c then { st with map := m } else st).bind_alloc_mode
      = st.bind_alloc_mode := by
  split_ifs <;> rfl

@[simp] theorem ite_stmt_bind_alloc_mode (c : Prop) [Decidable c]
    (a b : OCI_Statement) :
    (if c then a else b).bind_alloc_mode
      = if c then a.bind_alloc_mode else b.bind_alloc_mode := by
  split_ifs <;> rfl

@[simp] theorem ite_stmt_ubinds (c : Prop) [Decidable c]
    (a b : OCI_Statement) :
    (if c then a else b).ubinds = if c then a.ubinds else b.ubinds := by
  split_ifs <;> rfl

@[simp] theorem ite_stmt_rbinds (c : Prop) [Decidable c]
    (a b : OCI_Statement) :
    (if c then a else b).rbinds = if c then a.rbinds else b.rbinds := by
  split_ifs <;> rfl

@[simp] theorem allocLens_lens (bnd : OCI_Bind) (a b : Nat) :
    (BindAllocateLens bnd a b).lens
      = some ((List.range (bnd.lens.getD (List.replicate a 0)).length).map
          fun i => if i < b then bnd.size % 65536
                   else (bnd.lens.getD (List.replicate a 0)).getD i 0) := rfl

@[simp] theorem allocDataVal_inds (lib : OCI_Library) (bnd : OCI_Bind) :
    (BindAllocData lib bnd).2.inds = bnd.inds := by
  cases hb : bnd.is_array <;> cases ht : bnd.type <;>
    simp [BindAllocData, hb, ht] <;> split_ifs <;> rfl

@[simp] theorem allocDataVal_lens (lib : OCI_Library) (bnd : OCI_Bind) :
    (BindAllocData lib bnd).2.lens = bnd.lens := by
  cases hb : bnd.is_array <;> cases ht : bnd.type <;>
    simp [BindAllocData, hb, ht] <;> split_ifs <;> rfl

@[simp] theorem allocDataVal_count (lib : OCI_Library) (bnd : OCI_Bind) :
    (BindAllocData lib bnd).2.count = bnd.count := by
  cases hb : bnd.is_array <;> cases ht : bnd.type <;>
    simp [BindAllocData, hb, ht] <;> split_ifs <;> rfl

@[simp] theorem allocDataVal_plrcds (lib : OCI_Library) (bnd : OCI_Bind) :
    (BindAllocData lib bnd).2.plrcds = bnd.plrcds := by
  cases hb : bnd.is_array <;> cases ht : bnd.type <;>
    simp [BindAllocData, hb, ht] <;> split_ifs <;> rfl

@[simp] theorem allocDataVal_nbelem (lib : OCI_Library) (bnd : OCI_Bind) :
    (BindAllocData lib bnd).2.nbelem = bnd.nbelem := by
  cases hb : bnd.is_array <;> cases ht : bnd.type <;>
    simp [BindAllocData, hb, ht] <;> split_ifs <;> rfl

@[simp] theorem allocDataVal_is_array (lib : OCI_Library) (bnd : OCI_Bind) :
    (BindAllocData lib bnd).2.is_array = bnd.is_array := by
  cases hb : bnd.is_array <;> cases ht : bnd.type <;>
    simp [BindAllocData, hb, ht] <;> split_ifs <;> rfl

@[simp] theorem allocInds_nbelem (bnd : OCI_Bind) (n : Nat) :
    (BindAllocateIndicators bnd n).nbelem = bnd.nbelem := by
  simp only [BindAllocateIndicators]; split_ifs <;> rfl

@[simp] theorem allocPlsql_nbelem (bnd : OCI_Bind) (a b : Nat) :
    (BindAllocatePlsqlInfo bnd a b).nbelem = b := by
  simp only [BindAllocatePlsqlInfo]; split_ifs <;> rfl

@[simp] theorem allocData_nbelem (lib : OCI_Library) (bnd : OCI_Bind) (n : Nat) :
    (BindAllocateDataArray lib bnd n).nbelem = bnd.nbelem := by
  simp only [BindAllocateDataArray]; split_ifs <;> rfl

@[simp] theorem allocLens_nbelem (bnd : OCI_Bind) (a b : Nat) :
    (BindAllocateLens bnd a b).nbelem = bnd.nbelem := rfl

/-- The remaining observable state of the Buffer Allocator on the
external path: indicator array, element count, length array, PL/SQL
status-code array, table element count and array flag. -/
theorem BindAllocateBuffers_arrays (lib : OCI_Library) (ctx : OCI_Context)
    (bnd : OCI_Bind) (reused : Bool) (nballoc nbelem : Nat) (pl : Bool)
    (stmt : OCI_Statement)
    (hst : ctx.status = true)
    (hsm : stmt.bind_alloc_mode = OCI_BAM_EXTERNAL) :
    (BindAllocateBuffers lib ctx bnd OCI_BIND_INPUT reused nballoc nbelem pl stmt).2.inds
      = some (bnd.inds.getD nballoc) ∧
    (BindAllocateBuffers lib ctx bnd OCI_BIND_INPUT reused nballoc nbelem pl stmt).2.count
      = bnd.count ∧
    ((bnd.type = CDT.raw ∨ bnd.type = CDT.text) →
      (BindAllocateBuffers lib ctx bnd OCI_BIND_INPUT reused nballoc nbelem pl stmt).2.lens
        = some ((List.range (bnd.lens.getD (List.replicate nballoc 0)).length).map
            fun i => if i < nbelem then bnd.size % 65536
                     else (bnd.lens.getD (List.replicate nballoc 0)).getD i 0)) ∧
    (¬ (bnd.type = CDT.raw ∨ bnd.type = CDT.text) →
      (BindAllocateBuffers lib ctx bnd OCI_BIND_INPUT reused nballoc nbelem pl stmt).2.lens
        = bnd.lens) ∧
    (BindAllocateBuffers lib ctx bnd OCI_BIND_INPUT reused nballoc nbelem pl stmt).2.plrcds
      = (if pl then some (bnd.plrcds.getD nballoc) else bnd.plrcds) ∧
    (BindAllocateBuffers lib ctx bnd OCI_BIND_INPUT reused nballoc nbelem pl stmt).2.nbelem
      = (if pl then nbelem else bnd.nbelem) ∧
    (BindAllocateBuffers lib ctx bnd OCI_BIND_INPUT reused nballoc nbelem pl stmt).2.is_array
      = bnd.is_array := by
  cases htype : bnd.type
  case numeric =>
    by_cases hco : bnd.code = SQLT_VNU <;> by_cases hpl : pl = true <;>
      simp [BindAllocateBuffers, BindAllocateDataArray,
        BindExternalNeedsDataArray, hst, hsm, htype, hco, hpl,
        OCI_BAM_EXTERNAL, OCI_BAM_INTERNAL]
  case text =>
    by_cases hw : lib.use_wide_char_conv = true <;> by_cases hpl : pl = true <;>
      simp [BindAllocateBuffers, BindAllocateDataArray,
        BindExternalNeedsDataArray, hst, hsm, htype, hw, hpl,
        OCI_BAM_EXTERNAL, OCI_BAM_INTERNAL]
  all_goals
    by_cases hpl : pl = true <;>
      simp [BindAllocateBuffers, BindAllocateDataArray,
        BindExternalNeedsDataArray, hst, hsm, htype, hpl,
        OCI_BAM_EXTERNAL, OCI_BAM_INTERNAL]

/-- The Buffer Allocator does not touch the call context on the external
path. -/
theorem alloc_ctx_ext (lib : OCI_Library) (ctx : OCI_Context)
    (bnd : OCI_Bind) (reused : Bool) (nballoc nbelem : Nat) (pl : Bool)
    (stmt : OCI_Statement)
    (hst : ctx.status = true)
    (hsm : stmt.bind_alloc_mode = OCI_BAM_EXTERNAL) :
    (BindAllocateBuffers lib ctx bnd OCI_BIND_INPUT reused nballoc nbelem pl stmt).1 = ctx :=
  (BindAllocateBuffers_external lib ctx bnd reused nballoc nbelem pl stmt hst hsm).1

/-! Stage-evaluation lemmas for `BindCreate`. -/

theorem checkIndex_by_name (s : CreateSt) (name : String)
    (h : s.stmt.bind_mode = OCI_BIND_BY_NAME) :
    BindCreateCheckIndex s name = s := by
  simp [BindCreateCheckIndex, h, OCI_BIND_BY_NAME, OCI_BIND_BY_POS]

theorem checkReuse_not_found (s : CreateSt) (name : String) (ty : CDT)
    (hst : s.ctx.status = true)
    (h : OCI_BindGetInternalIndex s.stmt name ≤ 0) :
    BindCreateCheckReuse s name OCI_BIND_INPUT ty
      = { s with prev_index := OCI_BindGetInternalIndex s.stmt name } := by
  have h2 : ¬ OCI_BindGetInternalIndex s.stmt name > 0 := by omega
  simp [BindCreateCheckReuse, hst, h2]

theorem checkReuse_already_used (s : CreateSt) (name : String) (ty : CDT)
    (hst : s.ctx.status = true)
    (hnr : s.stmt.bind_reuse = false)
    (hgt : OCI_BindGetInternalIndex s.stmt name > 0) :
    BindCreateCheckReuse s name OCI_BIND_INPUT ty
      = { s with prev_index := OCI_BindGetInternalIndex s.stmt name,
                 index := OCI_BindGetInternalIndex s.stmt name,
                 ctx := ⟨false, some BindError.bindAlreadyUsed⟩ } := by
  simp [BindCreateCheckReuse, hst, hnr, hgt]

theorem checkReuse_match (s : CreateSt) (name : String) (ty : CDT)
    (hst : s.ctx.status = true)
    (hru : s.stmt.bind_reuse = true)
    (hgt : OCI_BindGetInternalIndex s.stmt name > 0)
    (hty : (s.stmt.ubinds.getD ((OCI_BindGetInternalIndex s.stmt name).toNat - 1) {}).type = ty) :
    BindCreateCheckReuse s name OCI_BIND_INPUT ty
      = { s with prev_index := OCI_BindGetInternalIndex s.stmt name,
                 index := OCI_BindGetInternalIndex s.stmt name,
                 bnd := some (s.stmt.ubinds.getD
                   ((OCI_BindGetInternalIndex s.stmt name).toNat - 1) {}),
                 reused := true } := by
  have hty2 : (s.stmt.ubinds[(OCI_BindGetInternalIndex s.stmt name).toNat - 1]?.getD
      ({} : OCI_Bind)).type = ty := by
    simpa [List.getD_eq_getElem?_getD] using hty
  simp [BindCreateCheckReuse, hst, hru, hgt, hty2, List.getD_eq_getElem?_getD]

theorem checkReuse_mismatch (s : CreateSt) (name : String) (ty : CDT)
    (hst : s.ctx.status = true)
    (hru : s.stmt.bind_reuse = true)
    (hgt : OCI_BindGetInternalIndex s.stmt name > 0)
    (hty : ¬ (s.stmt.ubinds.getD ((OCI_BindGetInternalIndex s.stmt name).toNat - 1) {}).type = ty) :
    BindCreateCheckReuse s name OCI_BIND_INPUT ty
      = { s with prev_index := OCI_BindGetInternalIndex s.stmt name,
                 index := OCI_BindGetInternalIndex s.stmt name,
                 bnd := some (s.stmt.ubinds.getD
                   ((OCI_BindGetInternalIndex s.stmt name).toNat - 1) {}),
                 ctx := ⟨false, some BindError.rebindBadDatatype⟩ } := by
  have hty2 : ¬ (s.stmt.ubinds[(OCI_BindGetInternalIndex s.stmt name).toNat - 1]?.getD
      ({} : OCI_Bind)).type = ty := by
    simpa [List.getD_eq_getElem?_getD] using hty
  simp [BindCreateCheckReuse, hst, hru, hgt, hty2, List.getD_eq_getElem?_getD]

theorem avail_nostatus (s : CreateSt) (mode : Nat)
    (h : s.ctx.status = false) : BindCreateAvail s mode = s := by
  simp [BindCreateAvail, BindCheckAvailability, h]

theorem avail_reused (s : CreateSt) (mode : Nat)
    (h : s.reused = true) : BindCreateAvail s mode = s := by
  rcases s with ⟨c, st, b, r, i, pi, ne, na, ia, pt, em⟩
  simp_all [BindCreateAvail, BindCheckAvailability]

theorem avail_new_input_ok (s : CreateSt)
    (hst : s.ctx.status = true) (hr : s.reused = false)
    (hlen : s.stmt.ubinds.length < OCI_BIND_MAX) :
    BindCreateAvail s OCI_BIND_INPUT
      = { s with stmt := { s.stmt with allocated_ubinds := max s.stmt.allocated_ubinds (min (s.stmt.ubinds.length + OCI_BIND_ARRAY_GROWTH_FACTOR) OCI_BIND_MAX) } } := by
  have h2 : ¬ s.stmt.ubinds.length ≥ OCI_BIND_MAX := by omega
  simp [BindCreateAvail, BindCheckAvailability, hst, hr, h2]

theorem avail_new_input_full (s : CreateSt)
    (hst : s.ctx.status = true) (hr : s.reused = false)
    (hlen : s.stmt.ubinds.length ≥ OCI_BIND_MAX) :
    BindCreateAvail s OCI_BIND_INPUT
      = { s with ctx := ⟨false, some BindError.maxBind⟩ } := by
  simp [BindCreateAvail, BindCheckAvailability, hst, hr, hlen]

theorem setup_nostatus (s : CreateSt) (h : s.ctx.status = false) :
    BindCreateSetup s = s := by
  simp [BindCreateSetup, h]

theorem setup_eval (s : CreateSt) (hst : s.ctx.status = true) :
    BindCreateSetup s
      = { s with
          nbelem := if 0 < s.nbelem then s.nbelem else s.stmt.nb_iters,
          is_array := if 0 < s.nbelem
            then (if OCI_IS_PLSQL_STMT s.stmt.type then true else s.is_array)
            else s.stmt.bind_array,
          plsql_table := if 0 < s.nbelem
            then (if OCI_IS_PLSQL_STMT s.stmt.type then true else s.plsql_table)
            else s.plsql_table,
          nballoc := if s.nballoc < s.stmt.nb_iters_init
            then s.stmt.nb_iters_init else s.nballoc,
          stmt := if s.stmt.map = none
            then { s.stmt with map := some [] } else s.stmt } := by
  simp only [BindCreateSetup, hst, if_true]
  split_ifs <;> simp_all

theorem init_nostatus (lib : OCI_Library) (s : CreateSt) (data : Bool)
    (name : String) (mode : Nat) (size : Nat) (ty : CDT)
    (code subtype : Nat) (h : s.ctx.status = false) :
    BindCreateInit lib s data name mode size ty code subtype = s := by
  simp [BindCreateInit, h]

theorem init_eval_some (lib : OCI_Library) (s : CreateSt) (data : Bool)
    (name : String) (mode : Nat) (size : Nat) (ty : CDT)
    (code subtype : Nat)
    (hst : s.ctx.status = true) (hb : s.bnd.isSome = true) :
    BindCreateInit lib s data name mode size ty code subtype
      = { s with
          ctx := (BindAllocateBuffers lib s.ctx
            (BindInitFields (s.bnd.getD {}) data name size ty code subtype s.is_array s.nbelem)
            mode s.reused s.nballoc s.nbelem s.plsql_table s.stmt).1,
          bnd := some (BindAllocateBuffers lib s.ctx
            (BindInitFields (s.bnd.getD {}) data name size ty code subtype s.is_array s.nbelem)
            mode s.reused s.nballoc s.nbelem s.plsql_table s.stmt).2,
          exec_mode := if (BindAllocateBuffers lib s.ctx
              (BindInitFields (s.bnd.getD {}) data name size ty code subtype s.is_array s.nbelem)
              mode s.reused s.nballoc s.nbelem s.plsql_table s.stmt).2.type = CDT.long
            then OCI_DATA_AT_EXEC
            else if mode = OCI_BIND_OUTPUT then OCI_DATA_AT_EXEC
            else OCI_DEFAULT } := by
  obtain ⟨b, hb2⟩ := Option.isSome_iff_exists.mp hb
  simp [BindCreateInit, hst, hb2]

theorem init_eval_fresh (lib : OCI_Library) (s : CreateSt) (data : Bool)
    (name : String) (mode : Nat) (size : Nat) (ty : CDT)
    (code subtype : Nat)
    (hst : s.ctx.status = true) (hb : s.bnd = none) :
    BindCreateInit lib s data name mode size ty code subtype
      = { s with
          ctx := (BindAllocateBuffers lib s.ctx
            (BindInitFields {} data name size ty code subtype s.is_array s.nbelem)
            mode s.reused s.nballoc s.nbelem s.plsql_table s.stmt).1,
          bnd := some (BindAllocateBuffers lib s.ctx
            (BindInitFields {} data name size ty code subtype s.is_array s.nbelem)
            mode s.reused s.nballoc s.nbelem s.plsql_table s.stmt).2,
          exec_mode := if (BindAllocateBuffers lib s.ctx
              (BindInitFields {} data name size ty code subtype s.is_array s.nbelem)
              mode s.reused s.nballoc s.nbelem s.plsql_table s.stmt).2.type = CDT.long
            then OCI_DATA_AT_EXEC
            else if mode = OCI_BIND_OUTPUT then OCI_DATA_AT_EXEC
            else OCI_DEFAULT } := by
  simp [BindCreateInit, hst, hb]

theorem finish_nostatus_keep (s : CreateSt) (mode : Nat)
    (h : s.ctx.status = false)
    (hp : s.bnd = none ∨ ¬ s.prev_index = -1) :
    BindCreateFinish s mode
      = ⟨s.bnd, s.stmt, s.ctx.status, s.ctx.err, false, s.plsql_table⟩ := by
  rcases hp with hp | hp <;> simp [BindCreateFinish, h, hp]

theorem finish_eval_ok (s : CreateSt) (mode : Nat)
    (hst : s.ctx.status = true) (hb : s.bnd.isSome = true) :
    BindCreateFinish s mode
      = ⟨some { s.bnd.getD {} with handle := true },
         BindAddToStatement
           (if s.reused
            then { s.stmt with ubinds :=
              s.stmt.ubinds.set (s.prev_index.toNat - 1) { s.bnd.getD {} with handle := true } }
            else s.stmt)
           { s.bnd.getD {} with handle := true } mode s.reused,
         s.ctx.status, s.ctx.err, false, s.plsql_table⟩ := by
  obtain ⟨b, hb2⟩ := Option.isSome_iff_exists.mp hb
  simp [BindCreateFinish, hst, hb2]

theorem add_input_reused (st : OCI_Statement) (b : OCI_Bind) :
    BindAddToStatement st b OCI_BIND_INPUT true = st := by
  simp [BindAddToStatement]

theorem add_input_new (st : OCI_Statement) (b : OCI_Bind) :
    BindAddToStatement st b OCI_BIND_INPUT false
      = { st with ubinds := st.ubinds ++ [b],
                  map := OCI_HashAddInt st.map b.name
                    (Int.ofNat (st.ubinds ++ [b]).length) } := by
  simp [BindAddToStatement]

/-- C8 (confirmed): with rebinding disabled, a `BindCreate` call under a
name that is already an input bind fails with `NameAlreadyBound`, returns
NULL, and leaves the statement — including the existing descriptor —
completely untouched (the failure-path destroy never runs). -/
theorem C8_name_already_bound (lib : OCI_Library) (stmt : OCI_Statement)
    (data : Bool) (name : String) (size : Nat) (ty : CDT)
    (code subtype nbelem : Nat)
    (hbm : stmt.bind_mode = OCI_BIND_BY_NAME)
    (hnr : stmt.bind_reuse = false)
    (hgt : OCI_BindGetInternalIndex stmt name > 0) :
    BindCreate lib stmt data name OCI_BIND_INPUT size ty code subtype nbelem
      = ⟨none, stmt, false, some BindError.bindAlreadyUsed, false, false⟩ := by
  simp [BindCreate, checkIndex_by_name, checkReuse_already_used,
    avail_nostatus, setup_nostatus, init_nostatus, finish_nostatus_keep,
    hbm, hnr, hgt]

/-- C2 (confirmed): with rebinding enabled and an existing input bind
under the given name, `BindCreate` with the identical category succeeds
and returns the descriptor stored at that same slot (the input-bind list
is not extended); with a different category it fails with
`IncompatibleRebindType`, the statement — and so the existing
descriptor and its buffers — is left untouched, and the failure-path
destroy never runs (the call returns the existing descriptor, not
necessarily NULL). -/
theorem C2_rebind_reuse (lib : OCI_Library) (stmt : OCI_Statement)
    (data : Bool) (name : String) (size : Nat) (ty : CDT)
    (code subtype nbelem : Nat)
    (hbm : stmt.bind_mode = OCI_BIND_BY_NAME)
    (hru : stmt.bind_reuse = true)
    (hgt : OCI_BindGetInternalIndex stmt name > 0)
    (hle : (OCI_BindGetInternalIndex stmt name).toNat ≤ stmt.ubinds.length)
    (halloc : stmt.bind_alloc_mode = OCI_BAM_EXTERNAL) :
    ((stmt.ubinds.getD ((OCI_BindGetInternalIndex stmt name).toNat - 1) {}).type = ty →
      (BindCreate lib stmt data name OCI_BIND_INPUT size ty code subtype nbelem).status = true ∧
      (BindCreate lib stmt data name OCI_BIND_INPUT size ty code subtype nbelem).err = none ∧
      (BindCreate lib stmt data name OCI_BIND_INPUT size ty code subtype nbelem).freedNew = false ∧
      (BindCreate lib stmt data name OCI_BIND_INPUT size ty code subtype nbelem).stmt.ubinds.length
        = stmt.ubinds.length ∧
      (BindCreate lib stmt data name OCI_BIND_INPUT size ty code subtype nbelem).bnd
        = some ((BindCreate lib stmt data name OCI_BIND_INPUT size ty code subtype nbelem).stmt.ubinds.getD
            ((OCI_BindGetInternalIndex stmt name).toNat - 1) {})) ∧
    (¬ (stmt.ubinds.getD ((OCI_BindGetInternalIndex stmt name).toNat - 1) {}).type = ty →
      (BindCreate lib stmt data name OCI_BIND_INPUT size ty code subtype nbelem).status = false ∧
      (BindCreate lib stmt data name OCI_BIND_INPUT size ty code subtype nbelem).err
        = some BindError.rebindBadDatatype ∧
      (BindCreate lib stmt data name OCI_BIND_INPUT size ty code subtype nbelem).freedNew = false ∧
      (BindCreate lib stmt data name OCI_BIND_INPUT size ty code subtype nbelem).stmt = stmt ∧
      (BindCreate lib stmt data name OCI_BIND_INPUT size ty code subtype nbelem).bnd
        = some (stmt.ubinds.getD ((OCI_BindGetInternalIndex stmt name).toNat - 1) {})) := by
  have hne : ¬ OCI_BindGetInternalIndex stmt name = -1 := by omega
  have hk : (OCI_BindGetInternalIndex stmt name).toNat - 1 < stmt.ubinds.length := by
    omega
  constructor
  · intro hty
    rw [List.getD_eq_getElem?_getD] at hty
    simp only [BindCreate, checkIndex_by_name, checkReuse_match, hbm, hru,
      hgt, hty, List.getD_eq_getElem?_getD]
    simp only [avail_reused]
    simp only [setup_eval]
    simp only [init_eval_some, Option.isSome_some, Option.getD_some]
    simp only [alloc_ctx_ext, halloc, ite_stmt_bind_alloc_mode, ite_self]
    simp only [finish_eval_ok, Option.isSome_some, Option.getD_some]
    simp only [add_input_reused, eq_self_iff_true, if_true]
    simp [hk, List.length_set, List.getElem?_set_self, List.getD_eq_getElem?_getD]
  · intro hty
    rw [List.getD_eq_getElem?_getD] at hty
    simp [BindCreate, checkIndex_by_name, checkReuse_mismatch,
      avail_nostatus, setup_nostatus, init_nostatus, finish_nostatus_keep,
      hbm, hru, hgt, hty, hne, List.getD_eq_getElem?_getD]

theorem alloc_inds_ext (lib : OCI_Library) (ctx : OCI_Context)
    (bnd : OCI_Bind) (reused : Bool) (nballoc nbelem : Nat) (pl : Bool)
    (stmt : OCI_Statement) (hst : ctx.status = true)
    (hsm : stmt.bind_alloc_mode = OCI_BAM_EXTERNAL) :
    (BindAllocateBuffers lib ctx bnd OCI_BIND_INPUT reused nballoc nbelem pl stmt).2.inds
      = some (bnd.inds.getD nballoc) :=
  (BindAllocateBuffers_arrays lib ctx bnd reused nballoc nbelem pl stmt hst hsm).1

theorem alloc_count_ext (lib : OCI_Library) (ctx : OCI_Context)
    (bnd : OCI_Bind) (reused : Bool) (nballoc nbelem : Nat) (pl : Bool)
    (stmt : OCI_Statement) (hst : ctx.status = true)
    (hsm : stmt.bind_alloc_mode = OCI_BAM_EXTERNAL) :
    (BindAllocateBuffers lib ctx bnd OCI_BIND_INPUT reused nballoc nbelem pl stmt).2.count
      = bnd.count :=
  (BindAllocateBuffers_arrays lib ctx bnd reused nballoc nbelem pl stmt hst hsm).2.1

theorem alloc_lens_rawtext (lib : OCI_Library) (ctx : OCI_Context)
    (bnd : OCI_Bind) (reused : Bool) (nballoc nbelem : Nat) (pl : Bool)
    (stmt : OCI_Statement) (hst : ctx.status = true)
    (hsm : stmt.bind_alloc_mode = OCI_BAM_EXTERNAL)
    (hty : bnd.type = CDT.raw ∨ bnd.type = CDT.text) :
    (BindAllocateBuffers lib ctx bnd OCI_BIND_INPUT reused nballoc nbelem pl stmt).2.lens
      = some ((List.range (bnd.lens.getD (List.replicate nballoc 0)).length).map
          fun i => if i < nbelem then bnd.size % 65536
                   else (bnd.lens.getD (List.replicate nballoc 0)).getD i 0) :=
  (BindAllocateBuffers_arrays lib ctx bnd reused nballoc nbelem pl stmt hst hsm).2.2.1 hty

theorem alloc_lens_other (lib : OCI_Library) (ctx : OCI_Context)
    (bnd : OCI_Bind) (reused : Bool) (nballoc nbelem : Nat) (pl : Bool)
    (stmt : OCI_Statement) (hst : ctx.status = true)
    (hsm : stmt.bind_alloc_mode = OCI_BAM_EXTERNAL)
    (hty : ¬ (bnd.type = CDT.raw ∨ bnd.type = CDT.text)) :
    (BindAllocateBuffers lib ctx bnd OCI_BIND_INPUT reused nballoc nbelem pl stmt).2.lens
      = bnd.lens :=
  (BindAllocateBuffers_arrays lib ctx bnd reused nballoc nbelem pl stmt hst hsm).2.2.2.1 hty

theorem alloc_plrcds_ext (lib : OCI_Library) (ctx : OCI_Context)
    (bnd : OCI_Bind) (reused : Bool) (nballoc nbelem : Nat) (pl : Bool)
    (stmt : OCI_Statement) (hst : ctx.status = true)
    (hsm : stmt.bind_alloc_mode = OCI_BAM_EXTERNAL) :
    (BindAllocateBuffers lib ctx bnd OCI_BIND_INPUT reused nballoc nbelem pl stmt).2.plrcds
      = (if pl then some (bnd.plrcds.getD nballoc) else bnd.plrcds) :=
  (BindAllocateBuffers_arrays lib ctx bnd reused nballoc nbelem pl stmt hst hsm).2.2.2.2.1

theorem alloc_nbelem_ext (lib : OCI_Library) (ctx : OCI_Context)
    (bnd : OCI_Bind) (reused : Bool) (nballoc nbelem : Nat) (pl : Bool)
    (stmt : OCI_Statement) (hst : ctx.status = true)
    (hsm : stmt.bind_alloc_mode = OCI_BAM_EXTERNAL) :
    (BindAllocateBuffers lib ctx bnd OCI_BIND_INPUT reused nballoc nbelem pl stmt).2.nbelem
      = (if pl then nbelem else bnd.nbelem) :=
  (BindAllocateBuffers_arrays lib ctx bnd reused nballoc nbelem pl stmt hst hsm).2.2.2.2.2.1

theorem alloc_is_array_ext (lib : OCI_Library) (ctx : OCI_Context)
    (bnd : OCI_Bind) (reused : Bool) (nballoc nbelem : Nat) (pl : Bool)
    (stmt : OCI_Statement) (hst : ctx.status = true)
    (hsm : stmt.bind_alloc_mode = OCI_BAM_EXTERNAL) :
    (BindAllocateBuffers lib ctx bnd OCI_BIND_INPUT reused nballoc nbelem pl stmt).2.is_array
      = bnd.is_array :=
  (BindAllocateBuffers_arrays lib ctx bnd reused nballoc nbelem pl stmt hst hsm).2.2.2.2.2.2

/-! Stage frame lemmas: which state components each builder stage leaves
untouched. -/

/-- The positional index check never touches the statement. -/
theorem checkIndex_stmt (s : CreateSt) (name : String) :
    (BindCreateCheckIndex s name).stmt = s.stmt := by
  simp only [BindCreateCheckIndex]
  split_ifs <;> rfl

/-- The reuse check never touches the statement. -/
theorem checkReuse_stmt (s : CreateSt) (name : String) (mode : Nat)
    (ty : CDT) : (BindCreateCheckReuse s name mode ty).stmt = s.stmt := by
  simp only [BindCreateCheckReuse]
  split_ifs <;> rfl

/-- The availability check never touches the input-bind list. -/
theorem avail_stmt_ubinds (s : CreateSt) (mode : Nat) :
    (BindCreateAvail s mode).stmt.ubinds = s.stmt.ubinds := by
  simp only [BindCreateAvail, BindCheckAvailability]
  split_ifs <;> rfl

/-- The availability check never touches the reuse flag. -/
theorem avail_reused_pres (s : CreateSt) (mode : Nat) :
    (BindCreateAvail s mode).reused = s.reused := rfl

/-- The cardinality setup never touches the call context. -/
theorem setup_ctx (s : CreateSt) : (BindCreateSetup s).ctx = s.ctx := by
  simp only [BindCreateSetup]
  split_ifs <;> rfl

/-- The cardinality setup never touches the input-bind list. -/
theorem setup_stmt_ubinds (s : CreateSt) :
    (BindCreateSetup s).stmt.ubinds = s.stmt.ubinds := by
  simp only [BindCreateSetup]
  split_ifs <;> rfl

/-- The cardinality setup never touches the reuse flag. -/
theorem setup_reused_pres (s : CreateSt) :
    (BindCreateSetup s).reused = s.reused := by
  simp only [BindCreateSetup]
  split_ifs <;> rfl

/-- The descriptor initialisation never touches the statement. -/
theorem init_stmt (lib : OCI_Library) (s : CreateSt) (data : Bool)
    (name : String) (mode : Nat) (size : Nat) (ty : CDT)
    (code subtype : Nat) :
    (BindCreateInit lib s data name mode size ty code subtype).stmt
      = s.stmt := by
  cases hb : s.bnd <;> by_cases hst : s.ctx.status = true <;>
    simp [BindCreateInit, hb, hst]

/-- The descriptor initialisation never touches the reuse flag. -/
theorem init_reused_pres (lib : OCI_Library) (s : CreateSt) (data : Bool)
    (name : String) (mode : Nat) (size : Nat) (ty : CDT)
    (code subtype : Nat) :
    (BindCreateInit lib s data name mode size ty code subtype).reused
      = s.reused := by
  cases hb : s.bnd <;> by_cases hst : s.ctx.status = true <;>
    simp [BindCreateInit, hb, hst]

/-- If the availability check exits with a live status for a
non-reused input bind, the registry was below the maximum. -/
theorem avail_status_lt (s : CreateSt) (hr : s.reused = false)
    (hst : (BindCreateAvail s OCI_BIND_INPUT).ctx.status = true) :
    s.stmt.ubinds.length < OCI_BIND_MAX := by
  by_cases h0 : s.ctx.status = true
  · by_cases hlen : s.stmt.ubinds.length < OCI_BIND_MAX
    · exact hlen
    · rw [avail_new_input_full s h0 hr (by omega)] at hst
      simp at hst
  · rw [avail_nostatus s OCI_BIND_INPUT (by simpa using h0)] at hst
    exact absurd hst h0

/-- The registration stage either keeps the input-bind count or, only on
a live non-reused path, grows it by exactly one. -/
theorem finish_input_len (s : CreateSt) :
    (BindCreateFinish s OCI_BIND_INPUT).stmt.ubinds.length
        = s.stmt.ubinds.length ∨
    ((BindCreateFinish s OCI_BIND_INPUT).stmt.ubinds.length
        = s.stmt.ubinds.length + 1 ∧
      s.ctx.status = true ∧ s.reused = false) := by
  by_cases hst : s.ctx.status = true
  · cases hb : s.bnd with
    | none => left; simp [BindCreateFinish, hst, hb]
    | some b =>
      by_cases hr : s.reused = true
      · left
        simp [BindCreateFinish, hst, hb, hr, BindAddToStatement,
          List.length_set]
      · right
        refine ⟨?_, hst, by simpa using hr⟩
        simp [BindCreateFinish, hst, hb, hr, BindAddToStatement]
  · left
    have hst' : s.ctx.status = false := by simpa using hst
    simp only [BindCreateFinish, hst']
    split_ifs <;> simp_all

/-- The builder either keeps the input-bind count or, only when the
registry started below the maximum, grows it by exactly one. -/
theorem BindCreate_input_len (lib : OCI_Library) (stmt : OCI_Statement)
    (data : Bool) (name : String) (size : Nat) (ty : CDT)
    (code subtype nbelem : Nat) :
    (BindCreate lib stmt data name OCI_BIND_INPUT size ty code subtype nbelem).stmt.ubinds.length
        = stmt.ubinds.length ∨
    ((BindCreate lib stmt data name OCI_BIND_INPUT size ty code subtype nbelem).stmt.ubinds.length
        = stmt.ubinds.length + 1 ∧
      stmt.ubinds.length < OCI_BIND_MAX) := by
  simp only [BindCreate]
  set s1 := BindCreateCheckIndex { stmt := stmt, nbelem := nbelem, nballoc := nbelem } name with h1
  set s2 := BindCreateCheckReuse s1 name OCI_BIND_INPUT ty with h2
  set s3 := BindCreateAvail s2 OCI_BIND_INPUT with h3
  set s4 := BindCreateSetup s3 with h4
  set s5 := BindCreateInit lib s4 data name OCI_BIND_INPUT size ty code subtype with h5
  have hub : s5.stmt.ubinds = stmt.ubinds := by
    rw [h5, init_stmt, h4, setup_stmt_ubinds, h3, avail_stmt_ubinds, h2,
      checkReuse_stmt, h1, checkIndex_stmt]
  have hrp : s5.reused = s2.reused := by
    rw [h5, init_reused_pres, h4, setup_reused_pres, h3, avail_reused_pres]
  have hstat : s5.ctx.status = true → s5.reused = false →
      stmt.ubinds.length < OCI_BIND_MAX := by
    intro hst5 hr5
    have hr2 : s2.reused = false := by rw [← hrp]; exact hr5
    have hst4 : s4.ctx.status = true := by
      by_contra h
      rw [h5, init_nostatus lib s4 data name OCI_BIND_INPUT size ty code
        subtype (by simpa using h)] at hst5
      exact h hst5
    have hst3 : s3.ctx.status = true := by
      rw [h4, setup_ctx] at hst4
      exact hst4
    have hlt : s2.stmt.ubinds.length < OCI_BIND_MAX := by
      rw [h3] at hst3
      exact avail_status_lt s2 hr2 hst3
    have hub2 : s2.stmt.ubinds = stmt.ubinds := by
      rw [h2, checkReuse_stmt, h1, checkIndex_stmt]
    rw [hub2] at hlt
    exact hlt
  rcases finish_input_len s5 with h | ⟨h, hst, hr⟩
  · left
    rw [h, hub]
  · right
    exact ⟨by rw [h, hub], hstat hst hr⟩

/-- C4: the registry of input binds is capped at `OCI_BIND_MAX`
(bind.c:141-190, 306-315): creating a fresh (non-reused) input bind on a
full statement fails with `TooManyBinds` before any slot is appended and
leaves the statement untouched, and a `BindCreate` call never pushes the
input-bind count past the maximum. -/
theorem C4_too_many_binds (lib : OCI_Library) (stmt : OCI_Statement)
    (data : Bool) (name : String) (size : Nat) (ty : CDT)
    (code subtype nbelem : Nat)
    (hbm : stmt.bind_mode = OCI_BIND_BY_NAME) :
    (OCI_BindGetInternalIndex stmt name ≤ 0 →
     OCI_BIND_MAX ≤ stmt.ubinds.length →
      BindCreate lib stmt data name OCI_BIND_INPUT size ty code subtype nbelem
        = ⟨none, stmt, false, some BindError.maxBind, false, false⟩) ∧
    (stmt.ubinds.length ≤ OCI_BIND_MAX →
      (BindCreate lib stmt data name OCI_BIND_INPUT size ty code subtype nbelem).stmt.ubinds.length
        ≤ OCI_BIND_MAX) := by
  constructor
  · intro hnew hfull
    simp only [BindCreate, checkIndex_by_name, checkReuse_not_found, hbm, hnew]
    simp only [avail_new_input_full, hfull, ge_iff_le]
    simp only [setup_nostatus]
    simp only [init_nostatus]
    rw [finish_nostatus_keep _ _ rfl (Or.inl rfl)]
  · intro hle
    rcases BindCreate_input_len lib stmt data name size ty code subtype nbelem
      with h | ⟨h, hlt⟩ <;> omega

/-- C4 witness: the availability cap observed on a statement whose
input-bind registry already holds `OCI_BIND_MAX` entries. -/
theorem C4_too_many_binds_witness :
    stFull.bind_mode = OCI_BIND_BY_NAME ∧
    OCI_BindGetInternalIndex stFull "X" ≤ 0 ∧
    OCI_BIND_MAX ≤ stFull.ubinds.length ∧
    BindCreate libNarrow stFull true "X" OCI_BIND_INPUT 8 CDT.numeric 3 0 0
      = ⟨none, stFull, false, some BindError.maxBind, false, false⟩ ∧
    (BindCreate libNarrow stFull true "X" OCI_BIND_INPUT 8 CDT.numeric 3 0 0).stmt.ubinds.length
      ≤ OCI_BIND_MAX :=
  have h1 : OCI_BindGetInternalIndex stFull "X" ≤ 0 := by decide
  have h2 : OCI_BIND_MAX ≤ stFull.ubinds.length := by
    simp [stFull]
  have h := C4_too_many_binds libNarrow stFull true "X" 8 CDT.numeric 3 0 0 rfl
  ⟨rfl, h1, h2, h.1 h1 h2, h.2 (by simp [stFull])⟩

/-- C7: in `BindCreate` (bind.c:411-435), a caller cardinality of 0 makes
the fresh bind inherit the statement's configured iteration count as its
cardinality and the statement's bulk-array flag, with no PL/SQL table
marking; a nonzero cardinality K under a PL/SQL statement type keeps
exactly K as the cardinality, marks the bind as an array and the call as
a dynamic table bind, allocates the per-element return-code buffers, and
records K in the descriptor's `nbelem`. -/
theorem C7_cardinality_inheritance (lib : OCI_Library) (stmt : OCI_Statement)
    (data : Bool) (name : String) (size : Nat) (ty : CDT)
    (code subtype nbelem : Nat)
    (hbm : stmt.bind_mode = OCI_BIND_BY_NAME)
    (hnew : OCI_BindGetInternalIndex stmt name ≤ 0)
    (hlen : stmt.ubinds.length < OCI_BIND_MAX)
    (halloc : stmt.bind_alloc_mode = OCI_BAM_EXTERNAL) :
    (nbelem = 0 →
      ((BindCreate lib stmt data name OCI_BIND_INPUT size ty code subtype nbelem).bnd.getD {}).count = stmt.nb_iters ∧
      ((BindCreate lib stmt data name OCI_BIND_INPUT size ty code subtype nbelem).bnd.getD {}).is_array = stmt.bind_array ∧
      (BindCreate lib stmt data name OCI_BIND_INPUT size ty code subtype nbelem).plsql_table = false) ∧
    (0 < nbelem → OCI_IS_PLSQL_STMT stmt.type = true →
      ((BindCreate lib stmt data name OCI_BIND_INPUT size ty code subtype nbelem).bnd.getD {}).count = nbelem ∧
      ((BindCreate lib stmt data name OCI_BIND_INPUT size ty code subtype nbelem).bnd.getD {}).is_array = true ∧
      (BindCreate lib stmt data name OCI_BIND_INPUT size ty code subtype nbelem).plsql_table = true ∧
      ((BindCreate lib stmt data name OCI_BIND_INPUT size ty code subtype nbelem).bnd.getD {}).plrcds.isSome = true ∧
      ((BindCreate lib stmt data name OCI_BIND_INPUT size ty code subtype nbelem).bnd.getD {}).nbelem = nbelem) := by
  simp only [BindCreate, checkIndex_by_name, checkReuse_not_found, hbm, hnew]
  simp only [avail_new_input_ok, hlen]
  simp only [setup_eval]
  simp only [init_eval_fresh, Option.isSome_some, Option.getD_some]
  simp only [alloc_ctx_ext, halloc, ite_stmt_bind_alloc_mode, ite_self]
  simp only [finish_eval_ok, Option.isSome_some, Option.getD_some]
  constructor
  · intro h0
    simp only [h0]
    simp only [alloc_count_ext, alloc_is_array_ext, alloc_plrcds_ext,
      alloc_nbelem_ext, halloc, ite_stmt_bind_alloc_mode, ite_self,
      Option.getD_some]
    simp [BindInitFields]
  · intro h0 hpl
    have h0' : 0 < nbelem := h0
    simp only [if_pos h0']
    simp only [alloc_count_ext, alloc_is_array_ext, alloc_plrcds_ext,
      alloc_nbelem_ext, halloc, ite_stmt_bind_alloc_mode, ite_self,
      Option.getD_some]
    simp [BindInitFields, h0', hpl]

/-- C7 witness: both cardinality regimes observed on a fresh PL/SQL-block
statement, with caller cardinality 0 and 2. -/
theorem C7_cardinality_inheritance_witness :
    stFresh.bind_mode = OCI_BIND_BY_NAME ∧
    OCI_BindGetInternalIndex stFresh "P" ≤ 0 ∧
    stFresh.ubinds.length < OCI_BIND_MAX ∧
    stFresh.bind_alloc_mode = OCI_BAM_EXTERNAL ∧
    (((BindCreate libNarrow stFresh true "P" OCI_BIND_INPUT 8 CDT.numeric 3 0 0).bnd.getD {}).count = stFresh.nb_iters ∧
     ((BindCreate libNarrow stFresh true "P" OCI_BIND_INPUT 8 CDT.numeric 3 0 0).bnd.getD {}).is_array = stFresh.bind_array ∧
     (BindCreate libNarrow stFresh true "P" OCI_BIND_INPUT 8 CDT.numeric 3 0 0).plsql_table = false) ∧
    (((BindCreate libNarrow stFresh true "P" OCI_BIND_INPUT 8 CDT.numeric 3 0 2).bnd.getD {}).count = 2 ∧
     ((BindCreate libNarrow stFresh true "P" OCI_BIND_INPUT 8 CDT.numeric 3 0 2).bnd.getD {}).is_array = true ∧
     (BindCreate libNarrow stFresh true "P" OCI_BIND_INPUT 8 CDT.numeric 3 0 2).plsql_table = true ∧
     ((BindCreate libNarrow stFresh true "P" OCI_BIND_INPUT 8 CDT.numeric 3 0 2).bnd.getD {}).plrcds.isSome = true ∧
     ((BindCreate libNarrow stFresh true "P" OCI_BIND_INPUT 8 CDT.numeric 3 0 2).bnd.getD {}).nbelem = 2) :=
  ⟨rfl, by decide, by decide, rfl,
   (C7_cardinality_inheritance libNarrow stFresh true "P" 8 CDT.numeric 3 0 0
     rfl (by decide) (by decide) rfl).1 rfl,
   (C7_cardinality_inheritance libNarrow stFresh true "P" 8 CDT.numeric 3 0 2
     rfl (by decide) (by decide) rfl).2 (by decide) (by decide)⟩

/-- C5: a fresh successful external input bind has its indicator array
allocated with at least its cardinality in elements (the allocator sizes
it by `nballoc`, which is the cardinality raised to the statement's
initial iteration count, bind.c:51-61, 437-439); a per-element length
array exists iff the category is Raw or Text (bind.c:112-127), and its
first `cardinality` entries are pre-filled with the declared element
size. -/
theorem C5_indicator_and_length_arrays (lib : OCI_Library)
    (stmt : OCI_Statement) (data : Bool) (name : String) (size : Nat)
    (ty : CDT) (code subtype nbelem : Nat)
    (hbm : stmt.bind_mode = OCI_BIND_BY_NAME)
    (hnew : OCI_BindGetInternalIndex stmt name ≤ 0)
    (hlen : stmt.ubinds.length < OCI_BIND_MAX)
    (halloc : stmt.bind_alloc_mode = OCI_BAM_EXTERNAL)
    (hiters : stmt.nb_iters ≤ stmt.nb_iters_init)
    (hsize : size < 65536) :
    (BindCreate lib stmt data name OCI_BIND_INPUT size ty code subtype nbelem).status = true ∧
    (BindCreate lib stmt data name OCI_BIND_INPUT size ty code subtype nbelem).bnd.isSome = true ∧
    (∃ m, ((BindCreate lib stmt data name OCI_BIND_INPUT size ty code subtype nbelem).bnd.getD {}).inds = some m ∧
      ((BindCreate lib stmt data name OCI_BIND_INPUT size ty code subtype nbelem).bnd.getD {}).count ≤ m) ∧
    (((BindCreate lib stmt data name OCI_BIND_INPUT size ty code subtype nbelem).bnd.getD {}).lens.isSome
      ↔ (ty = CDT.raw ∨ ty = CDT.text)) ∧
    (∀ l, ((BindCreate lib stmt data name OCI_BIND_INPUT size ty code subtype nbelem).bnd.getD {}).lens = some l →
      ∀ i, i < ((BindCreate lib stmt data name OCI_BIND_INPUT size ty code subtype nbelem).bnd.getD {}).count →
        l.getD i 0 = size) := by
  by_cases hrt : (ty = CDT.raw ∨ ty = CDT.text)
  · simp only [BindCreate, checkIndex_by_name, checkReuse_not_found, hbm, hnew]
    simp only [avail_new_input_ok, hlen]
    simp only [setup_eval]
    simp only [init_eval_fresh, Option.isSome_some, Option.getD_some]
    simp only [alloc_ctx_ext, halloc, ite_stmt_bind_alloc_mode, ite_self]
    simp only [finish_eval_ok, Option.isSome_some, Option.getD_some]
    simp only [alloc_inds_ext, alloc_count_ext, alloc_lens_rawtext, halloc,
      ite_stmt_bind_alloc_mode, ite_self, BindInitFields, hrt,
      Option.getD_some, Option.getD_none, Option.isSome_some, List.length_replicate]
    refine ⟨by trivial, by trivial, ?_, ?_, ?_⟩
    · refine ⟨_, rfl, ?_⟩
      split_ifs <;> omega
    · simp
    · intro l hl i hi
      obtain rfl := Option.some_inj.mp hl
      have hiA : i < (if nbelem < stmt.nb_iters_init then stmt.nb_iters_init else nbelem) := by
        split_ifs at hi ⊢ <;> omega
      rw [getD_range_map _ _ _ _ hiA, if_pos hi]
      exact Nat.mod_eq_of_lt hsize
  · simp only [BindCreate, checkIndex_by_name, checkReuse_not_found, hbm, hnew]
    simp only [avail_new_input_ok, hlen]
    simp only [setup_eval]
    simp only [init_eval_fresh, Option.isSome_some, Option.getD_some]
    simp only [alloc_ctx_ext, halloc, ite_stmt_bind_alloc_mode, ite_self]
    simp only [finish_eval_ok, Option.isSome_some, Option.getD_some]
    simp only [alloc_inds_ext, alloc_count_ext, alloc_lens_other, halloc,
      ite_stmt_bind_alloc_mode, ite_self, BindInitFields, hrt,
      Option.getD_some, Option.getD_none, Option.isSome_some,
      not_false_eq_true]
    refine ⟨by trivial, by trivial, ?_, by simp [hrt], by simp⟩
    refine ⟨_, rfl, ?_⟩
    split_ifs <;> omega

/-- C5 witness: the buffer shape of a fresh Text bind of element size 7
and inherited cardinality 3 on `stFresh`. -/
theorem C5_indicator_and_length_arrays_witness :
    stFresh.bind_mode = OCI_BIND_BY_NAME ∧
    OCI_BindGetInternalIndex stFresh "N" ≤ 0 ∧
    stFresh.ubinds.length < OCI_BIND_MAX ∧
    stFresh.bind_alloc_mode = OCI_BAM_EXTERNAL ∧
    stFresh.nb_iters ≤ stFresh.nb_iters_init ∧
    (7 : Nat) < 65536 ∧
    (BindCreate libNarrow stFresh true "N" OCI_BIND_INPUT 7 CDT.text 5 0 0).status = true ∧
    ((BindCreate libNarrow stFresh true "N" OCI_BIND_INPUT 7 CDT.text 5 0 0).bnd.getD {}).lens.isSome = true :=
  have h := C5_indicator_and_length_arrays libNarrow stFresh true "N" 7
    CDT.text 5 0 0 rfl (by decide) (by decide) rfl (by decide) (by decide)
  ⟨rfl, by decide, by decide, rfl, by decide, by decide, h.1,
   (h.2.2.2.1).mpr (Or.inr rfl)⟩

/-- C8 witness: the second bind of `X` on a reuse-disabled statement. -/
theorem C8_name_already_bound_witness :
    stReuseOff.bind_mode = OCI_BIND_BY_NAME ∧
    stReuseOff.bind_reuse = false ∧
    OCI_BindGetInternalIndex stReuseOff "X" > 0 ∧
    BindCreate libNarrow stReuseOff true "X" OCI_BIND_INPUT 10 CDT.text 5 0 0
      = ⟨none, stReuseOff, false, some BindError.bindAlreadyUsed, false, false⟩ :=
  ⟨rfl, rfl, by decide,
   C8_name_already_bound libNarrow stReuseOff true "X" 10 CDT.text 5 0 0
     rfl rfl (by decide)⟩

/-- C2 witness: rebinding `X` with the identical Text category on a
reuse-enabled statement succeeds without growing the registry. -/
theorem C2_rebind_reuse_witness :
    stReuseOn.bind_mode = OCI_BIND_BY_NAME ∧
    stReuseOn.bind_reuse = true ∧
    OCI_BindGetInternalIndex stReuseOn "X" > 0 ∧
    (OCI_BindGetInternalIndex stReuseOn "X").toNat ≤ stReuseOn.ubinds.length ∧
    stReuseOn.bind_alloc_mode = OCI_BAM_EXTERNAL ∧
    (BindCreate libNarrow stReuseOn true "X" OCI_BIND_INPUT 10 CDT.text 5 0 0).status = true ∧
    (BindCreate libNarrow stReuseOn true "X" OCI_BIND_INPUT 10 CDT.text 5 0 0).err = none ∧
    (BindCreate libNarrow stReuseOn true "X" OCI_BIND_INPUT 10 CDT.text 5 0 0).stmt.ubinds.length
      = stReuseOn.ubinds.length :=
  have h := C2_rebind_reuse libNarrow stReuseOn true "X" 10 CDT.text 5 0 0
    rfl rfl (by decide) (by decide) rfl
  have hp := h.1 (by decide)
  ⟨rfl, rfl, by decide, by decide, rfl, hp.1, hp.2.1, hp.2.2.2.1⟩
